import Mathlib

/-!
# libxcam: seam alignment (`cv_feature_match.cpp`) and geo map handler (`cl_geo_map_handler.cpp`)

A shallow embedding of the two source files of `modules/ocl`.

Conventions of the embedding:

* `float` values are IEEE 754 binary32 values (`F32`): every operation is rounded to nearest,
  ties to even, and there are infinities and NaN.  The constants `0.8f`, `1.2f`, `4.0f`, ...
  are the binary32 values nearest to the decimal numbers written in the source.
* `get_mean_offset` is embedded a second time on exact rationals (`ℚ`), without rounding: this
  is the function on inputs whose intermediate values are all exact in binary32, and it has
  the same control flow on counts.  The binary32 embedding is in the namespace `Binary32`.
* in `cl_geo_map_handler.cpp` the `float` values are exact rationals (`ℚ`).
* `int` values are unbounded integers (`Int`), division is C division (truncation toward zero,
  `Int.tdiv`); signed overflow is undefined in C and is outside the model.
* `uint32_t` values are natural numbers, reduced modulo `2 ^ 32` wherever the source computes in
  32 bits.
* `std::vector` is `List`; an index outside a vector reads a default value (the C++ behaviour
  is undefined there).
* calls into OpenCL / OpenCV whose outcome the program cannot decide (buffer creation, image
  creation, mapping a buffer) take their outcome from an explicit environment argument.
-/

namespace XCam

/-! ## Alignment macros (`xcam_defs.h`, not part of the two source files) -/

/-- Modelled from the spec: the macro `XCAM_ALIGN_UP (value, align)`, whose definition is in a
header outside the sources, is `(value + align - 1) / align * align` on unsigned values. -/
def XCAM_ALIGN_UP (value align : Nat) : Nat :=
  (value + align - 1) / align * align

/-- Modelled from the spec: the macro `XCAM_ALIGN_DOWN (value, align)`, whose definition is in a
header outside the sources, rounds an unsigned value down to a multiple of `align`:
`value / align * align`. -/
def XCAM_ALIGN_DOWN (value align : Nat) : Nat :=
  value / align * align

/-- Modelled from the spec: the macro `XCAM_ALIGN_AROUND (value, align)`, whose definition is in a
header outside the sources, is `(value + align / 2) / align * align`, here on `int` with C
division; for `align = 8` this is `(value + 4) / 8 * 8`. -/
def XCAM_ALIGN_AROUND (value align : Int) : Int :=
  (value + align.tdiv 2).tdiv align * align

/-! ## IEEE 754 binary32 (`float`)

`F32` is the value set of a C `float` and the functions below are the operations that
`get_valid_offsets`, `get_mean_offset` and `calc_match_optical_flow` apply to it.  Every
arithmetic operation of the source is one binary32 operation, rounded to nearest, ties to even
(no wider intermediate precision and no fused multiply-add); `fabs` is the `float` overload.
All of it is computed with integers.

A finite value is `m * 2 ^ e`.  The results of the operations are in canonical form: a
significand `|m| < 2 ^ 24` and `-149 ≤ e ≤ 104`, with `2 ^ 23 ≤ |m|` unless `e = -149`.  Zero
has no sign: the functions embedded here never divide by a `float` that can be zero and never
look at the sign of a zero, and every comparison treats the two zeros alike. -/

/-- The values of a `float`: NaN, the two infinities, and the finite values `m * 2 ^ e`. -/
inductive F32 where
  | nan
  | inf (negative : Bool)
  | fin (m : Int) (e : Int)
  deriving DecidableEq, Inhabited

namespace F32

/-- The rational number a finite value stands for (`0` for NaN and the infinities, which have
none). -/
def toRat : F32 → ℚ
  | nan => 0
  | inf _ => 0
  | fin m e => (m : ℚ) * (2 : ℚ) ^ e

/-- The quotient `n / d` of two natural numbers rounded to the nearest natural number, a tie
going to the even one. -/
def rne_div (n d : Nat) : Nat :=
  if 2 * (n % d) < d then n / d
  else if d < 2 * (n % d) then n / d + 1
  else if n / d % 2 = 0 then n / d else n / d + 1

/-- The number of halvings that bring `n` below `2`, at most `fuel` of them. -/
def log2_fuel : Nat → Nat → Nat
  | 0, _ => 0
  | fuel + 1, n => if 2 ≤ n then log2_fuel fuel (n / 2) + 1 else 0

/-- The integer part of the binary logarithm of `n ≥ 1`. -/
def ilog2 (n : Nat) : Nat :=
  log2_fuel n n

/-- The integer part of the binary logarithm of `a / d`, for `a, d ≥ 1`. -/
def floor_log2 (a d : Nat) : Int :=
  let e0 : Int := (ilog2 a : Int) - (ilog2 d : Int)
  if (if 0 ≤ e0 then decide (d * 2 ^ e0.toNat ≤ a) else decide (d ≤ a * 2 ^ (-e0).toNat))
  then e0 else e0 - 1

/-- The binary32 value nearest to the rational number `num / den` (ties to even): the exponent
is that of the number, at least `-126` (below that the values are subnormal); the significand
is rounded to 24 bits; a result of magnitude `2 ^ 128` or more is an infinity. -/
def round32 (num : Int) (den : Nat) : F32 :=
  if den = 0 then nan
  else if num = 0 then fin 0 (-149)
  else
    let a := num.natAbs
    let e := max (floor_log2 a den) (-126)
    let s := 23 - e
    let n := if 0 ≤ s then rne_div (a * 2 ^ s.toNat) den else rne_div a (den * 2 ^ (-s).toNat)
    let n1 := if n = 2 ^ 24 then 2 ^ 23 else n
    let e1 := if n = 2 ^ 24 then e + 1 else e
    if 127 < e1 then inf (decide (num < 0))
    else fin (if num < 0 then -(n1 : Int) else (n1 : Int)) (e1 - 23)

/-- The binary32 value nearest to `m * 2 ^ e`. -/
def round_dyadic (m e : Int) : F32 :=
  if 0 ≤ e then round32 (m * 2 ^ e.toNat) 1 else round32 m (2 ^ (-e).toNat)

/-- The conversion of an `int` to `float`. -/
def ofInt (n : Int) : F32 :=
  round32 n 1

/-- The `float` literal written as the decimal fraction `num / den` (`0.8f` is `ofFrac 4 5`). -/
def ofFrac (num : Int) (den : Nat) : F32 :=
  round32 num den

/-- The operation `a + b` on `float`. -/
def add : F32 → F32 → F32
  | nan, _ => nan
  | _, nan => nan
  | inf a, inf b => if a = b then inf a else nan
  | inf a, fin _ _ => inf a
  | fin _ _, inf b => inf b
  | fin m1 e1, fin m2 e2 =>
    round_dyadic (m1 * 2 ^ (e1 - min e1 e2).toNat + m2 * 2 ^ (e2 - min e1 e2).toNat) (min e1 e2)

/-- The operation `-a` on `float`. -/
def neg : F32 → F32
  | nan => nan
  | inf a => inf (!a)
  | fin m e => fin (-m) e

/-- The operation `a - b` on `float`. -/
def sub (a b : F32) : F32 :=
  add a (neg b)

/-- The operation `a * b` on `float`. -/
def mul : F32 → F32 → F32
  | nan, _ => nan
  | _, nan => nan
  | inf a, inf b => inf (xor a b)
  | inf a, fin m _ => if m = 0 then nan else inf (xor a (decide (m < 0)))
  | fin m _, inf b => if m = 0 then nan else inf (xor (decide (m < 0)) b)
  | fin m1 e1, fin m2 e2 => round_dyadic (m1 * m2) (e1 + e2)

/-- The operation `a / b` on `float`; a zero divisor counts as `+0`. -/
def div : F32 → F32 → F32
  | nan, _ => nan
  | _, nan => nan
  | inf _, inf _ => nan
  | inf a, fin m _ => inf (xor a (decide (m < 0)))
  | fin _ _, inf _ => fin 0 (-149)
  | fin m1 e1, fin m2 e2 =>
    if m2 = 0 then (if m1 = 0 then nan else inf (decide (m1 < 0)))
    else if 0 ≤ e1 - e2 then round32 (m1 * m2.sign * 2 ^ (e1 - e2).toNat) m2.natAbs
    else round32 (m1 * m2.sign) (m2.natAbs * 2 ^ (e2 - e1).toNat)

/-- The function `fabs` on `float`. -/
def fabs : F32 → F32
  | nan => nan
  | inf _ => inf false
  | fin m e => fin (m.natAbs : Int) e

/-- The comparison `a < b` on `float`; it is false when an operand is NaN. -/
def lt : F32 → F32 → Bool
  | nan, _ => false
  | _, nan => false
  | inf a, inf b => a && !b
  | inf a, fin _ _ => a
  | fin _ _, inf b => !b
  | fin m1 e1, fin m2 e2 =>
    decide (m1 * 2 ^ (e1 - min e1 e2).toNat < m2 * 2 ^ (e2 - min e1 e2).toNat)

/-- The comparison `a <= b` on `float`; it is false when an operand is NaN. -/
def le : F32 → F32 → Bool
  | nan, _ => false
  | _, nan => false
  | inf a, inf b => a || !b
  | inf a, fin _ _ => a
  | fin _ _, inf b => !b
  | fin m1 e1, fin m2 e2 =>
    decide (m1 * 2 ^ (e1 - min e1 e2).toNat ≤ m2 * 2 ^ (e2 - min e1 e2).toNat)

/-- The comparison `a > b` on `float`. -/
def gt (a b : F32) : Bool :=
  lt b a

/-- The comparison `a >= b` on `float`. -/
def ge (a b : F32) : Bool :=
  le b a

/-- The literal `0.0f`. -/
def zero : F32 :=
  fin 0 (-149)

/-- A value that is not below zero: NaN, `+inf`, or a finite value with `0 ≤ m`. -/
def nonneg : F32 → Prop
  | nan => True
  | inf negative => negative = false
  | fin m _ => 0 ≤ m

end F32

/-! ## `cv_feature_match.cpp` -/

/-- The constant `sitch_min_width`. -/
def sitch_min_width : Int := 56

/-- The constant `min_corners`. -/
def min_corners : Int := 8

/-- The constant `offset_factor = 0.8f`. -/
def offset_factor : F32 := F32.ofFrac 4 5

/-- The constant `delta_mean_offset = 1.0f`. -/
def delta_mean_offset : F32 := F32.ofInt 1

/-- The constant `delta_offset = 12.0f`. -/
def delta_offset : F32 := F32.ofInt 12

/-- The type `cv::Point2f`. -/
structure Point2f where
  x : F32
  y : F32
  deriving DecidableEq, Inhabited

/-- The three outputs of `get_valid_offsets`: the vector `offsets`, `sum` and `count`. -/
structure ValidOffsets where
  offsets : List F32
  sum : F32
  count : Int
  deriving DecidableEq

/-- Body of the loop of `get_valid_offsets` for the index `i`.  The `int` constants `16` and
`4` are converted to `float` for the comparisons. -/
def get_valid_offsets_body (corner0 corner1 : List Point2f) (status : List Nat)
    (error : List F32) (acc : ValidOffsets) (i : Nat) : ValidOffsets :=
  if status.getD i 0 = 0 ∨ F32.gt (error.getD i default) (F32.ofInt 16) = true then acc
  else if F32.ge (F32.fabs (F32.sub (corner0.getD i default).y (corner1.getD i default).y))
      (F32.ofInt 4) = true then acc
  else
    let offset := F32.sub (corner1.getD i default).x (corner0.getD i default).x
    { offsets := acc.offsets ++ [offset], sum := F32.add acc.sum offset, count := acc.count + 1 }

/-- The function `get_valid_offsets`: `count` and `sum` are reset, then the indices
`0 .. status.size () - 1` are visited in order; `offsets` is the vector passed in by reference,
to which the accepted offsets are appended.  The debug drawing is compiled out
(`XCAM_OF_DEBUG` is `0`).  The vectors hold fewer than `2 ^ 31` elements, so that neither the
`uint32_t` index nor the `int` count wraps. -/
def get_valid_offsets (corner0 corner1 : List Point2f) (status : List Nat)
    (error : List F32) (offsets : List F32) : ValidOffsets :=
  (List.range status.length).foldl (get_valid_offsets_body corner0 corner1 status error)
    { offsets := offsets, sum := F32.zero, count := 0 }

/-! ### `get_mean_offset` on exact rationals -/

/-- Inner loop of `get_mean_offset`: `sum` and `recur_count` over the offsets that are less than
`4.0f` away from `mean_offset`. -/
def recur_sum_count (offsets : List ℚ) (mean_offset : ℚ) : ℚ × Int :=
  offsets.foldl
    (fun acc o => if |o - mean_offset| ≥ 4 then acc else (acc.1 + o, acc.2 + 1))
    (0, 0)

/-- The variables of `get_mean_offset` that live across the refinement loop. -/
structure MeanState where
  mean_offset : ℚ
  delta : ℚ
  pre_mean_offset : ℚ
  count : Int
  deriving DecidableEq

/-- One pass of the loop `for (try_times = 1; try_times < 4; ++try_times)`.  The first component
is `false` when the pass leaves the loop through `ret = false; break;`. -/
def mean_pass (offsets : List ℚ) (st : MeanState) : Bool × MeanState :=
  let sc := recur_sum_count offsets st.mean_offset
  if sc.2 < min_corners then (false, st)
  else
    let mean_offset := sc.1 / (sc.2 : ℚ)
    if |mean_offset - st.pre_mean_offset| > |st.delta| * (6 / 5) then
      (false, { st with mean_offset := mean_offset })
    else
      (true, { mean_offset := mean_offset
               delta := mean_offset - st.pre_mean_offset
               pre_mean_offset := mean_offset
               count := sc.2 })

/-- The loop of `get_mean_offset`, run for `passes` passes. -/
def mean_loop (offsets : List ℚ) : Nat → MeanState → Bool × MeanState
  | 0, st => (true, st)
  | n + 1, st =>
    match mean_pass offsets st with
    | (true, st1) => mean_loop offsets n st1
    | (false, st1) => (false, st1)

/-- The result of `get_mean_offset`: the return value and the two reference parameters. -/
structure MeanResult where
  ret : Bool
  count : Int
  mean_offset : ℚ
  deriving DecidableEq

/-- The variables of `get_mean_offset` on entry to the loop: `mean_offset = sum / count`,
`delta = 20.0f`, `pre_mean_offset = mean_offset`. -/
def mean_state_entry (sum : ℚ) (count : Int) : MeanState :=
  { mean_offset := sum / (count : ℚ), delta := 20, pre_mean_offset := sum / (count : ℚ),
    count := count }

/-- The function `get_mean_offset`; `count` and `mean_offset` are the values the reference
parameters hold on entry. -/
def get_mean_offset (offsets : List ℚ) (sum : ℚ) (count : Int) (mean_offset : ℚ) : MeanResult :=
  if count < min_corners then { ret := false, count := count, mean_offset := mean_offset }
  else
    let r := mean_loop offsets 3 (mean_state_entry sum count)
    { ret := r.1, count := r.2.count, mean_offset := r.2.mean_offset }

/-- The state of `get_mean_offset` at the start of pass `k + 1` (`k = 0` is the state before
the first pass), when the loop gets that far. -/
def mean_state_before (offsets : List ℚ) (st : MeanState) : Nat → Option MeanState
  | 0 => some st
  | k + 1 =>
    match mean_state_before offsets st k with
    | none => none
    | some s =>
      match mean_pass offsets s with
      | (true, s1) => some s1
      | (false, _) => none

/-- The offsets a refinement pass keeps: those less than `4.0` away from the current mean. -/
def kept_offsets (offsets : List ℚ) (mean_offset : ℚ) : List ℚ :=
  offsets.filter (fun o => decide (|o - mean_offset| < 4))

/-! ### `get_mean_offset` on binary32 -/

namespace Binary32

/-- Inner loop of `get_mean_offset`: `sum` and `recur_count` over the offsets for which the
test `fabs (offsets[i] - mean_offset) >= 4.0f` is false. -/
def recur_sum_count (offsets : List F32) (mean_offset : F32) : F32 × Int :=
  offsets.foldl
    (fun acc o =>
      if F32.ge (F32.fabs (F32.sub o mean_offset)) (F32.ofInt 4) = true then acc
      else (F32.add acc.1 o, acc.2 + 1))
    (F32.zero, 0)

/-- The variables of `get_mean_offset` that live across the refinement loop. -/
structure MeanState where
  mean_offset : F32
  delta : F32
  pre_mean_offset : F32
  count : Int
  deriving DecidableEq

/-- One pass of the loop `for (try_times = 1; try_times < 4; ++try_times)`.  The first component
is `false` when the pass leaves the loop through `ret = false; break;`. -/
def mean_pass (offsets : List F32) (st : MeanState) : Bool × MeanState :=
  let sc := recur_sum_count offsets st.mean_offset
  if sc.2 < min_corners then (false, st)
  else
    let mean_offset := F32.div sc.1 (F32.ofInt sc.2)
    if F32.gt (F32.fabs (F32.sub mean_offset st.pre_mean_offset))
        (F32.mul (F32.fabs st.delta) (F32.ofFrac 6 5)) = true then
      (false, { st with mean_offset := mean_offset })
    else
      (true, { mean_offset := mean_offset
               delta := F32.sub mean_offset st.pre_mean_offset
               pre_mean_offset := mean_offset
               count := sc.2 })

/-- The loop of `get_mean_offset`, run for `passes` passes. -/
def mean_loop (offsets : List F32) : Nat → MeanState → Bool × MeanState
  | 0, st => (true, st)
  | n + 1, st =>
    match mean_pass offsets st with
    | (true, st1) => mean_loop offsets n st1
    | (false, st1) => (false, st1)

/-- The result of `get_mean_offset`: the return value and the two reference parameters. -/
structure MeanResult where
  ret : Bool
  count : Int
  mean_offset : F32
  deriving DecidableEq

/-- The variables of `get_mean_offset` on entry to the loop: `mean_offset = sum / count`,
`delta = 20.0f`, `pre_mean_offset = mean_offset`. -/
def mean_state_entry (sum : F32) (count : Int) : MeanState :=
  { mean_offset := F32.div sum (F32.ofInt count), delta := F32.ofInt 20,
    pre_mean_offset := F32.div sum (F32.ofInt count), count := count }

/-- The function `get_mean_offset`; `count` and `mean_offset` are the values the reference
parameters hold on entry. -/
def get_mean_offset (offsets : List F32) (sum : F32) (count : Int) (mean_offset : F32) :
    MeanResult :=
  if count < min_corners then { ret := false, count := count, mean_offset := mean_offset }
  else
    let r := mean_loop offsets 3 (mean_state_entry sum count)
    { ret := r.1, count := r.2.count, mean_offset := r.2.mean_offset }

/-- The state of `get_mean_offset` at the start of pass `k + 1` (`k = 0` is the state before
the first pass), when the loop gets that far. -/
def mean_state_before (offsets : List F32) (st : MeanState) : Nat → Option MeanState
  | 0 => some st
  | k + 1 =>
    match mean_state_before offsets st k with
    | none => none
    | some s =>
      match mean_pass offsets s with
      | (true, s1) => some s1
      | (false, _) => none

/-- The offsets a refinement pass keeps: those for which the test
`fabs (offsets[i] - mean_offset) >= 4.0f` is false. -/
def kept_offsets (offsets : List F32) (mean_offset : F32) : List F32 :=
  offsets.filter (fun o => !(F32.ge (F32.fabs (F32.sub o mean_offset)) (F32.ofInt 4)))

/-- The binary32 running sum of a list: the elements are added from left to right, starting
from `0.0f`, each addition rounded. -/
def running_sum (offsets : List F32) : F32 :=
  offsets.foldl F32.add F32.zero

end Binary32

/-! ### `get_valid_offsets` and `calc_match_optical_flow`: specification side -/

/-- The acceptance test that `get_valid_offsets` applies to the correspondence
`(points0[i], points1[i], status[i], error[i])`: it is tracked successfully, the test
`error > 16` is false and the test `fabs (y0 - y1) >= 4` on the rounded difference is false. -/
def accepted (corner0 corner1 : List Point2f) (status : List Nat) (error : List F32)
    (i : Nat) : Bool :=
  match corner0[i]?, corner1[i]?, status[i]?, error[i]? with
  | some p0, some p1, some s, some e => decide (s ≠ 0) && !(F32.gt e (F32.ofInt 16)) &&
      !(F32.ge (F32.fabs (F32.sub p0.y p1.y)) (F32.ofInt 4))
  | _, _, _, _ => false

/-- The horizontal displacement `points1[i].x - points0[i].x` of the correspondence `i`, as
the rounded binary32 difference. -/
def offset_at (corner0 corner1 : List Point2f) (i : Nat) : F32 :=
  match corner0[i]?, corner1[i]? with
  | some p0, some p1 => F32.sub p1.x p0.x
  | _, _ => F32.zero

/-- The indices below `n` that pass the acceptance test, in increasing order. -/
def accepted_indices (corner0 corner1 : List Point2f) (status : List Nat) (error : List F32)
    (n : Nat) : List Nat :=
  (List.range n).filter (accepted corner0 corner1 status error)

/-- The acceptance test in the words of the specification, on the real numbers the values
stand for: tracked successfully, `error ≤ 16` and `|y0 - y1| < 4`. -/
def accepted_exact (corner0 corner1 : List Point2f) (status : List Nat) (error : List F32)
    (i : Nat) : Bool :=
  match corner0[i]?, corner1[i]?, status[i]?, error[i]? with
  | some p0, some p1, some s, some e => decide (s ≠ 0) && decide (e.toRat ≤ 16) &&
      decide (|p0.y.toRat - p1.y.toRat| < 4)
  | _, _, _, _ => false

/-- The offsets in the words of the specification: the real numbers `points1[i].x - points0[i].x`
of the indices below `n` that pass `accepted_exact`, in increasing order. -/
def offsets_exact (corner0 corner1 : List Point2f) (status : List Nat) (error : List F32)
    (n : Nat) : List ℚ :=
  ((List.range n).filter (accepted_exact corner0 corner1 status error)).map
    (fun i => ((corner1.getD i default).x).toRat - ((corner0.getD i default).x).toRat)

/-- The per-seam state that `optical_flow_feature_match` keeps in static variables. -/
structure SeamState where
  last_count : Int
  last_mean_offset : F32
  out_x_offset : F32
  deriving DecidableEq

/-- The function `calc_match_optical_flow`, on the three reference parameters `last_count`,
`last_mean_offset` and `out_x_offset`; the image it returns is left out. -/
def calc_match_optical_flow (corner0 corner1 : List Point2f) (status : List Nat)
    (error : List F32) (st : SeamState) : SeamState :=
  let v := get_valid_offsets corner0 corner1 status error []
  let r := Binary32.get_mean_offset v.offsets v.sum v.count F32.zero
  let out_x_offset :=
    if r.ret then
      if F32.lt (F32.fabs (F32.sub r.mean_offset st.last_mean_offset)) delta_mean_offset = true ∨
          F32.lt (F32.fabs (F32.sub r.mean_offset st.out_x_offset)) delta_offset = true then
        F32.add (F32.mul st.out_x_offset offset_factor)
          (F32.mul r.mean_offset (F32.sub (F32.ofInt 1) offset_factor))
      else st.out_x_offset
    else F32.zero
  { last_count := r.count, last_mean_offset := r.mean_offset, out_x_offset := out_x_offset }

/-- The fields of `cv::Rect`. -/
structure Rect where
  x : Int
  y : Int
  width : Int
  height : Int
  deriving DecidableEq

/-- The value of `final_overlap_width` in `adjust_stitch_area` after the alignment. -/
def final_overlap_width (dst_width : Int) (stitch0 stitch1 : Rect) : Int :=
  XCAM_ALIGN_AROUND (stitch1.x + stitch1.width + (dst_width - (stitch0.x + stitch0.width))) 8

/-- The two `XCAM_ASSERT`s of `adjust_stitch_area`. -/
def adjust_stitch_area_asserts (dst_width : Int) (stitch0 stitch1 : Rect) : Bool :=
  decide (final_overlap_width dst_width stitch0 stitch1 ≥ sitch_min_width) &&
  decide ((final_overlap_width dst_width stitch0 stitch1).tdiv 2 > sitch_min_width.tdiv 2)

/-- The function `adjust_stitch_area`: the new values of `stitch0` and `stitch1`. -/
def adjust_stitch_area (dst_width : Int) (stitch0 stitch1 : Rect) : Rect × Rect :=
  let fow := final_overlap_width dst_width stitch0 stitch1
  let center := fow.tdiv 2
  let x1 := XCAM_ALIGN_AROUND (center - sitch_min_width.tdiv 2) 8
  let s1 : Rect := { stitch1 with x := x1, width := sitch_min_width }
  let s0 : Rect := { stitch0 with x := dst_width - fow + x1, width := sitch_min_width }
  (s0, s1)

/-! ## `cl_geo_map_handler.cpp` -/

/-- The constant `GEO_MAP_CHANNEL`. -/
def GEO_MAP_CHANNEL : Nat := 4

/-- The size `sizeof (float)`. -/
def sizeof_float : Nat := 4

/-- The fields `x`, `y` of `GeoPos` (declared in a header outside the sources). -/
structure GeoPos where
  x : ℚ
  y : ℚ

/-- A valid `CLBuffer`: its size in bytes and its contents seen through a mapped `float *`
(`mem j` is `map_ptr [j]`). -/
structure CLBuffer where
  size : Nat
  mem : Nat → ℚ

/-- The fields of `CLImageDesc` the handler sets (the channel format is left out). -/
structure CLImageDesc where
  width : Nat
  height : Nat
  row_pitch : Nat
  deriving DecidableEq

/-- A valid image (`CLImage2D` over the geo map buffer, `CLVaImage` over a video buffer):
its descriptor and its byte offset in the underlying buffer. -/
structure CLImage where
  desc : CLImageDesc
  offset : Nat
  deriving DecidableEq

/-- The members of `CLGeoMapHandler`; a released (null) smart pointer is `none`. -/
structure CLGeoMapHandler where
  _output_width : Nat
  _output_height : Nat
  _map_width : Nat
  _map_height : Nat
  _uint_x : ℚ
  _uint_y : ℚ
  _input_y : Option CLImage
  _input_uv : Option CLImage
  _output_y : Option CLImage
  _output_uv : Option CLImage
  _geo_map : Option CLBuffer
  _geo_image : Option CLImage
  _geo_map_normalized : Bool

/-- The constructor `CLGeoMapHandler::CLGeoMapHandler ()`. -/
def CLGeoMapHandler.new : CLGeoMapHandler :=
  { _output_width := 0, _output_height := 0, _map_width := 0, _map_height := 0,
    _uint_x := 0, _uint_y := 0, _input_y := none, _input_uv := none, _output_y := none,
    _output_uv := none, _geo_map := none, _geo_image := none, _geo_map_normalized := false }

/-- What the OpenCL runtime answers during one call of `check_geo_map_buf`: whether
`new CLBuffer` gives a valid buffer, the (unspecified) contents of a new buffer, and whether
`new CLImage2D` gives a valid image. -/
structure AllocEnv where
  buffer_ok : Bool
  buffer_init : Nat → ℚ
  image_ok : Bool

/-- The function `CLGeoMapHandler::check_geo_map_buf`. -/
def check_geo_map_buf (env : AllocEnv) (width height : Nat) (h : CLGeoMapHandler) :
    Bool × CLGeoMapHandler :=
  if width = h._map_width ∧ height = h._map_height ∧ h._geo_map.isSome then (true, h)
  else
    let pitch := (width * GEO_MAP_CHANNEL % 2 ^ 32) * sizeof_float % 2 ^ 32
    let size := pitch * height % 2 ^ 32
    if env.buffer_ok = false then (false, { h with _geo_map := none })
    else if env.image_ok = false then (false, { h with _geo_map := none, _geo_image := none })
    else
      (true, { h with
        _geo_map := some { size := size, mem := env.buffer_init }
        _geo_image := some { desc := { width := width, height := height, row_pitch := pitch },
                             offset := 0 }
        _map_width := width
        _map_height := height })

/-- One iteration of the loop of `set_map_data`: `map_ptr [i * 4] = data [i].x` and
`map_ptr [i * 4 + 1] = data [i].y`, the indices computed in 32 bits. -/
def set_map_cell (data : Nat → GeoPos) (mem : Nat → ℚ) (i : Nat) : Nat → ℚ :=
  Function.update (Function.update mem (i * GEO_MAP_CHANNEL % 2 ^ 32) (data i).x)
    ((i * GEO_MAP_CHANNEL + 1) % 2 ^ 32) (data i).y

/-- The function `CLGeoMapHandler::set_map_data`; `data` is the array behind the pointer and
`map_ok` tells whether `enqueue_map` succeeds. -/
def set_map_data (env : AllocEnv) (map_ok : Bool) (data : Nat → GeoPos) (width height : Nat)
    (h : CLGeoMapHandler) : Bool × CLGeoMapHandler :=
  match check_geo_map_buf env width height h with
  | (false, h1) => (false, h1)
  | (true, h1) =>
    match h1._geo_map with
    | none => (false, h1)
    | some buf =>
      if map_ok = false then (false, h1)
      else
        (true, { h1 with
          _geo_map := some { buf with
            mem := (List.range (width * height % 2 ^ 32)).foldl (set_map_cell data) buf.mem }
          _geo_map_normalized := false })

/-- One iteration of the loop of `normalize_geo_map`: `map_ptr [i * 4] /= image_w` and
`map_ptr [i * 4 + 1] /= image_h`. -/
def normalize_cell (image_w image_h : Nat) (mem : Nat → ℚ) (i : Nat) : Nat → ℚ :=
  let mem1 := Function.update mem (i * GEO_MAP_CHANNEL % 2 ^ 32)
    (mem (i * GEO_MAP_CHANNEL % 2 ^ 32) / (image_w : ℚ))
  Function.update mem1 ((i * GEO_MAP_CHANNEL + 1) % 2 ^ 32)
    (mem1 ((i * GEO_MAP_CHANNEL + 1) % 2 ^ 32) / (image_h : ℚ))

/-- The function `CLGeoMapHandler::normalize_geo_map`; `map_ok` tells whether `enqueue_map`
succeeds. -/
def normalize_geo_map (map_ok : Bool) (image_w image_h : Nat) (h : CLGeoMapHandler) :
    Bool × CLGeoMapHandler :=
  match h._geo_map with
  | none => (false, h)
  | some buf =>
    if map_ok = false then (false, h)
    else
      (true, { h with
        _geo_map := some { buf with
          mem := (List.range (h._map_width * h._map_height % 2 ^ 32)).foldl
            (normalize_cell image_w image_h) buf.mem } })

/-- The values of `XCamReturn` that occur. -/
inductive XCamReturn where
  | XCAM_RETURN_NO_ERROR
  | XCAM_RETURN_ERROR_PARAM
  | XCAM_RETURN_ERROR_UNKNOWN
  deriving DecidableEq

/-- The fields of `VideoBufferInfo` that `prepare_parameters` reads; the strides and offsets
are those of the two NV12 planes. -/
structure VideoBufferInfo where
  width : Nat
  height : Nat
  stride_y : Nat
  stride_uv : Nat
  offset_y : Nat
  offset_uv : Nat

/-- What one call of `prepare_parameters` receives from outside: the video info of `input` and
`output`, whether `enqueue_map` succeeds in `normalize_geo_map`, and the value returned by the
base class method `CLImageHandler::prepare_parameters`. -/
structure FrameEnv where
  in_info : VideoBufferInfo
  out_info : VideoBufferInfo
  map_ok : Bool
  base_ret : XCamReturn

/-- The function `CLGeoMapHandler::set_map_uint`. -/
def set_map_uint (uint_x uint_y : ℚ) (h : CLGeoMapHandler) : CLGeoMapHandler :=
  { h with _uint_x := uint_x, _uint_y := uint_y }

/-- Modelled from the spec: the accessor `get_map_uint (uint_x, uint_y)` is defined in the
class declaration, outside the sources; it reads the cell unit `_uint_x`, `_uint_y`. -/
def get_map_uint (h : CLGeoMapHandler) : ℚ × ℚ :=
  (h._uint_x, h._uint_y)

/-- First part of `CLGeoMapHandler::prepare_parameters`: the four plane images `_input [..]`
and `_output [..]` are created from the video info of the frame.  They are taken to be valid,
as the `XCAM_ASSERT` says. -/
def prepare_plane_images (env : FrameEnv) (h : CLGeoMapHandler) : CLGeoMapHandler :=
  let input_image_w := XCAM_ALIGN_DOWN env.in_info.width 2
  let input_image_h := XCAM_ALIGN_DOWN env.in_info.height 2
  let out_w := XCAM_ALIGN_DOWN env.out_info.width 4 / 8
  let out_h := XCAM_ALIGN_DOWN env.out_info.height 2
  { h with
    _input_y := some { desc := { width := input_image_w, height := input_image_h,
                                 row_pitch := env.in_info.stride_y },
                       offset := env.in_info.offset_y }
    _input_uv := some { desc := { width := input_image_w / 2, height := input_image_h / 2,
                                  row_pitch := env.in_info.stride_uv },
                        offset := env.in_info.offset_uv }
    _output_y := some { desc := { width := out_w, height := out_h,
                                  row_pitch := env.out_info.stride_y },
                        offset := env.out_info.offset_y }
    _output_uv := some { desc := { width := out_w, height := out_h / 2,
                                   row_pitch := env.out_info.stride_uv },
                         offset := env.out_info.offset_uv } }

/-- Second part of `CLGeoMapHandler::prepare_parameters`: the block
"calculate kernel map unit_x, unit_y". -/
def resolve_map_uint (env : FrameEnv) (h : CLGeoMapHandler) : CLGeoMapHandler :=
  if (get_map_uint h).1 < 1 ∧ (get_map_uint h).2 < 1 then
    set_map_uint ((env.out_info.width : ℚ) / (h._map_width : ℚ))
      ((env.out_info.height : ℚ) / (h._map_height : ℚ)) h
  else h

/-- The function `CLGeoMapHandler::prepare_parameters`. -/
def prepare_parameters (env : FrameEnv) (h : CLGeoMapHandler) : XCamReturn × CLGeoMapHandler :=
  let h1 := prepare_plane_images env h
  if h1._geo_map.isNone then (XCamReturn.XCAM_RETURN_ERROR_PARAM, h1)
  else
    let h2 := resolve_map_uint env h1
    if h2._geo_map_normalized = false then
      match normalize_geo_map env.map_ok (XCAM_ALIGN_DOWN env.in_info.width 2)
          (XCAM_ALIGN_DOWN env.in_info.height 2) h2 with
      | (false, h3) => (XCamReturn.XCAM_RETURN_ERROR_PARAM, h3)
      | (true, h3) => (env.base_ret, { h3 with _geo_map_normalized := true })
    else (env.base_ret, h2)

/-- A run of `prepare_parameters` over successive frames: the final handler when every call
returns `XCAM_RETURN_NO_ERROR`, `none` as soon as one call fails. -/
def prepare_frames : List FrameEnv → CLGeoMapHandler → Option CLGeoMapHandler
  | [], h => some h
  | env :: envs, h =>
    match prepare_parameters env h with
    | (XCamReturn.XCAM_RETURN_NO_ERROR, h1) => prepare_frames envs h1
    | (_, _) => none

/-- The members of `CLWorkSize` (declared in a header outside the sources): `dim` and the
`size_t` arrays `global` and `local`. -/
structure CLWorkSize where
  dim : Nat
  global0 : Nat
  global1 : Nat
  local0 : Nat
  local1 : Nat
  deriving DecidableEq

/-- The work size that `CLGeoMapKernel::prepare_arguments` computes from the descriptor
`outuv_desc` of the output chroma plane.  `XCAM_DEFAULT_IMAGE_DIM` is `2`; the arithmetic is
that of `size_t` (64 bits). -/
def prepare_arguments_work_size (outuv_desc : CLImageDesc) : CLWorkSize :=
  { dim := 2
    local0 := 16
    local1 := 4
    global0 := XCAM_ALIGN_UP outuv_desc.width 16 % 2 ^ 64
    global1 := XCAM_ALIGN_UP outuv_desc.height 4 % 2 ^ 64 }

/-- The plane indices `CLNV12PlaneY` and `CLNV12PlaneUV` (declared in a header outside the
sources). -/
inductive CLNV12PlaneIdx where
  | CLNV12PlaneY
  | CLNV12PlaneUV
  deriving DecidableEq

/-- Modelled from the spec: the accessor `get_geo_input_image (index)` is defined in the class
declaration, outside the sources; it hands out the input plane image `_input [index]`. -/
def get_geo_input_image (index : CLNV12PlaneIdx) (h : CLGeoMapHandler) : Option CLImage :=
  match index with
  | CLNV12PlaneIdx.CLNV12PlaneY => h._input_y
  | CLNV12PlaneIdx.CLNV12PlaneUV => h._input_uv

/-- Modelled from the spec: the accessor `get_geo_output_image (index)` is defined in the class
declaration, outside the sources; it hands out the output plane image `_output [index]`. -/
def get_geo_output_image (index : CLNV12PlaneIdx) (h : CLGeoMapHandler) : Option CLImage :=
  match index with
  | CLNV12PlaneIdx.CLNV12PlaneY => h._output_y
  | CLNV12PlaneIdx.CLNV12PlaneUV => h._output_uv

/-- Modelled from the spec: the accessor `get_geo_map_table ()` is defined in the class
declaration, outside the sources; it hands out the field image `_geo_image`. -/
def get_geo_map_table (h : CLGeoMapHandler) : Option CLImage :=
  h._geo_image

/-- The function `CLGeoMapHandler::get_geo_equivalent_out_size`. -/
def get_geo_equivalent_out_size (h : CLGeoMapHandler) : ℚ × ℚ :=
  ((h._map_width : ℚ) * h._uint_x, (h._map_height : ℚ) * h._uint_y)

/-- The function `CLGeoMapHandler::get_geo_pixel_out_size`. -/
def get_geo_pixel_out_size (h : CLGeoMapHandler) : ℚ × ℚ :=
  ((h._output_width : ℚ), (h._output_height : ℚ))

/-- What the field `arg_adress` of a kernel argument points to: the `cl_mem` handle of an
image, or an array of two floats (`_geo_scale_size`, `_out_size`). -/
inductive ArgValue where
  | mem_id (image : CLImage)
  | float2 (v0 v1 : ℚ)
  deriving DecidableEq

/-- The fields of `CLArgument` (declared in a header outside the sources). -/
structure CLArgument where
  arg_adress : ArgValue
  arg_size : Nat
  deriving DecidableEq

/-- The size `sizeof (cl_mem)` of a handle, a pointer of 8 bytes. -/
def sizeof_cl_mem : Nat := 8

/-- The function `CLGeoMapKernel::prepare_arguments`: the return value, the array `args` up to
`arg_count`, and the work size.  The five images are dereferenced without a test, so the result
is `none` (undefined behaviour) when one of them is not held. -/
def prepare_arguments (h : CLGeoMapHandler) :
    Option (XCamReturn × List CLArgument × CLWorkSize) :=
  match get_geo_input_image CLNV12PlaneIdx.CLNV12PlaneY h,
      get_geo_input_image CLNV12PlaneIdx.CLNV12PlaneUV h,
      get_geo_output_image CLNV12PlaneIdx.CLNV12PlaneY h,
      get_geo_output_image CLNV12PlaneIdx.CLNV12PlaneUV h,
      get_geo_map_table h with
  | some input_y, some input_uv, some output_y, some output_uv, some geo_image =>
    let geo_scale_size := get_geo_equivalent_out_size h
    let out_size := get_geo_pixel_out_size h
    some (XCamReturn.XCAM_RETURN_NO_ERROR,
      [ { arg_adress := ArgValue.mem_id input_y, arg_size := sizeof_cl_mem },
        { arg_adress := ArgValue.mem_id input_uv, arg_size := sizeof_cl_mem },
        { arg_adress := ArgValue.mem_id geo_image, arg_size := sizeof_cl_mem },
        { arg_adress := ArgValue.float2 geo_scale_size.1 geo_scale_size.2,
          arg_size := 2 * sizeof_float },
        { arg_adress := ArgValue.mem_id output_y, arg_size := sizeof_cl_mem },
        { arg_adress := ArgValue.mem_id output_uv, arg_size := sizeof_cl_mem },
        { arg_adress := ArgValue.float2 out_size.1 out_size.2, arg_size := 2 * sizeof_float } ],
      prepare_arguments_work_size output_uv.desc)
  | _, _, _, _, _ => none

/-! ## Example inputs -/

/-- An OpenCL runtime in which buffer and image creation succeed; a new buffer holds zeros. -/
def alloc_ok : AllocEnv :=
  { buffer_ok := true, buffer_init := fun _ => 0, image_ok := true }

/-- An OpenCL runtime in which buffer creation fails. -/
def alloc_buffer_fails : AllocEnv :=
  { buffer_ok := false, buffer_init := fun _ => 0, image_ok := true }

/-- Field data with the vector `(32, 32)` in every cell. -/
def data_32 : Nat → GeoPos :=
  fun _ => { x := 32, y := 32 }

/-- A frame with a 640x480 input and a 256x256 output, for which mapping the buffer and the
base class method succeed. -/
def frame_640x480 : FrameEnv :=
  { in_info := { width := 640, height := 480, stride_y := 640, stride_uv := 640,
                 offset_y := 0, offset_uv := 307200 }
    out_info := { width := 256, height := 256, stride_y := 256, stride_uv := 256,
                  offset_y := 0, offset_uv := 65536 }
    map_ok := true
    base_ret := XCamReturn.XCAM_RETURN_NO_ERROR }

/-- The handler after a 4x4 field of `(32, 32)` was written into a new handler. -/
def handler_loaded : CLGeoMapHandler :=
  (set_map_data alloc_ok true data_32 4 4 CLGeoMapHandler.new).2

/-- The handler after one frame was prepared on `handler_loaded`: its field is normalized. -/
def handler_normalized : CLGeoMapHandler :=
  (prepare_parameters frame_640x480 handler_loaded).2

/-- A frame with a 640x480 input and a 16x16 output, for which mapping the buffer and the base
class method succeed. -/
def frame_out_16x16 : FrameEnv :=
  { in_info := { width := 640, height := 480, stride_y := 640, stride_uv := 640,
                 offset_y := 0, offset_uv := 307200 }
    out_info := { width := 16, height := 16, stride_y := 16, stride_uv := 16,
                  offset_y := 0, offset_uv := 256 }
    map_ok := true
    base_ret := XCamReturn.XCAM_RETURN_NO_ERROR }

/-- The handler after a 32x32 field of `(32, 32)` was written into a new handler; its
`_uint_x`, `_uint_y` are still the `0.0f` of the constructor. -/
def handler_loaded_32x32 : CLGeoMapHandler :=
  (set_map_data alloc_ok true data_32 32 32 CLGeoMapHandler.new).2

/-- Eight offsets around the mean `1/8 + 2^-26`: `4.125`, six times `-0.5`, and
`-0.125 + 2^-23`.  Each is a binary32 value. -/
def window_offsets : List F32 :=
  [F32.ofFrac 33 8, F32.ofFrac (-1) 2, F32.ofFrac (-1) 2, F32.ofFrac (-1) 2, F32.ofFrac (-1) 2,
   F32.ofFrac (-1) 2, F32.ofFrac (-1) 2, F32.ofFrac (-1048575) 8388608]

/-- The sum `1 + 2^-23` of `window_offsets`, a binary32 value. -/
def window_sum : F32 :=
  F32.ofFrac 8388609 8388608

/-- The list of `n` points `(x, 0)`. -/
def points_at (x : F32) (n : Nat) : List Point2f :=
  List.replicate n { x := x, y := F32.zero }

/-- The handler after a field of `(32, 32)` with the declared size 65536 x 65537 was written
into a new handler: in 32 bits the cell count `65536 * 65537` is `65536` and the buffer size
`65536 * 65537 * 16` is `2 ^ 20` bytes. -/
def handler_loaded_wrapped : CLGeoMapHandler :=
  (set_map_data alloc_ok true data_32 65536 65537 CLGeoMapHandler.new).2

/-! ## Lemmas on `get_mean_offset` -/

theorem recur_fold_eq (m : ℚ) (offsets : List ℚ) (acc : ℚ × Int) :
    offsets.foldl (fun acc o => if |o - m| ≥ 4 then acc else (acc.1 + o, acc.2 + 1)) acc
      = (acc.1 + (kept_offsets offsets m).sum,
          acc.2 + ((kept_offsets offsets m).length : Int)) := by
  induction offsets generalizing acc with
  | nil => simp [kept_offsets]
  | cons o os ih =>
    rw [List.foldl_cons, ih]
    by_cases h : |o - m| ≥ 4
    · have h2 : ¬ |o - m| < 4 := not_lt.mpr h
      simp [kept_offsets, h, h2]
    · have h2 : |o - m| < 4 := not_le.mp h
      simp [kept_offsets, h, h2]
      constructor <;> ring

theorem recur_sum_count_eq (offsets : List ℚ) (m : ℚ) :
    recur_sum_count offsets m
      = ((kept_offsets offsets m).sum, ((kept_offsets offsets m).length : Int)) := by
  unfold recur_sum_count
  rw [recur_fold_eq]
  simp

theorem mean_pass_few (offsets : List ℚ) (st : MeanState)
    (h : (kept_offsets offsets st.mean_offset).length < 8) :
    (mean_pass offsets st).1 = false := by
  have h2 : ((kept_offsets offsets st.mean_offset).length : Int) < 8 := by exact_mod_cast h
  simp [mean_pass, recur_sum_count_eq, min_corners, h2]

theorem mean_pass_count (offsets : List ℚ) (st st1 : MeanState)
    (h : mean_pass offsets st = (true, st1)) : 8 ≤ st1.count := by
  unfold mean_pass at h
  simp only [min_corners] at h
  split_ifs at h with h1 h2
  · simp at h
  · simp at h
  · simp only [Prod.mk.injEq, true_and] at h
    rw [← h]
    exact not_lt.mp h1

theorem mean_loop_count (offsets : List ℚ) (n : Nat) (st st1 : MeanState)
    (h : mean_loop offsets (n + 1) st = (true, st1)) : 8 ≤ st1.count := by
  induction n generalizing st with
  | zero =>
    unfold mean_loop at h
    split at h
    · next s1 hp =>
      simp only [mean_loop, Prod.mk.injEq, true_and] at h
      rw [← h]
      exact mean_pass_count offsets st s1 hp
    · simp at h
  | succ n ih =>
    rw [mean_loop] at h
    split at h
    · next s1 hp => exact ih s1 h
    · simp at h

theorem mean_loop_split (offsets : List ℚ) (k j : Nat) (st s : MeanState)
    (h : mean_state_before offsets st k = some s) :
    mean_loop offsets (k + j) st = mean_loop offsets j s := by
  induction k generalizing s j with
  | zero =>
    simp only [mean_state_before, Option.some.injEq] at h
    simp [h]
  | succ k ih =>
    rw [mean_state_before] at h
    split at h
    · simp at h
    · next s0 h0 =>
      split at h
      · next s1 hp =>
        simp only [Option.some.injEq] at h
        have e : k + 1 + j = k + (j + 1) := by omega
        rw [e, ih (j + 1) s0 h0, mean_loop, hp, h]
      · simp at h

theorem mean_loop_break (offsets : List ℚ) (n : Nat) (st : MeanState)
    (h : (mean_pass offsets st).1 = false) : (mean_loop offsets (n + 1) st).1 = false := by
  rw [mean_loop]
  split
  · next s1 hp => simp [hp] at h
  · rfl

theorem kept_offsets_all (offsets : List ℚ) (m : ℚ) (h : ∀ o ∈ offsets, |o - m| < 4) :
    kept_offsets offsets m = offsets := by
  unfold kept_offsets
  rw [List.filter_eq_self]
  intro o ho
  simpa using h o ho

theorem mean_pass_fixed (offsets : List ℚ) (d : ℚ) (hn : 8 ≤ offsets.length)
    (h : ∀ o ∈ offsets, |o - offsets.sum / (offsets.length : ℚ)| < 4) :
    mean_pass offsets
        { mean_offset := offsets.sum / (offsets.length : ℚ), delta := d,
          pre_mean_offset := offsets.sum / (offsets.length : ℚ), count := (offsets.length : Int) }
      = (true, { mean_offset := offsets.sum / (offsets.length : ℚ), delta := 0,
                 pre_mean_offset := offsets.sum / (offsets.length : ℚ),
                 count := (offsets.length : Int) }) := by
  have hn2 : ¬ ((offsets.length : Int) < 8) := by
    have : (8 : Int) ≤ (offsets.length : Int) := by exact_mod_cast hn
    omega
  have hd : ¬ (|d| * (6 / 5) < 0) := by
    have := abs_nonneg d
    nlinarith
  simp [mean_pass, recur_sum_count_eq, kept_offsets_all offsets _ h, min_corners, hn2, hd]

theorem mean_loop_fixed (offsets : List ℚ) (d : ℚ) (n : Nat) (hn : 8 ≤ offsets.length)
    (h : ∀ o ∈ offsets, |o - offsets.sum / (offsets.length : ℚ)| < 4) :
    mean_loop offsets (n + 1)
        { mean_offset := offsets.sum / (offsets.length : ℚ), delta := d,
          pre_mean_offset := offsets.sum / (offsets.length : ℚ), count := (offsets.length : Int) }
      = (true, { mean_offset := offsets.sum / (offsets.length : ℚ), delta := 0,
                 pre_mean_offset := offsets.sum / (offsets.length : ℚ),
                 count := (offsets.length : Int) }) := by
  induction n generalizing d with
  | zero => simp only [mean_loop, mean_pass_fixed offsets d hn h]
  | succ n ih =>
    rw [mean_loop, mean_pass_fixed offsets d hn h]
    exact ih 0

theorem get_mean_offset_window (offsets : List ℚ) (m0 : ℚ) (hn : 8 ≤ offsets.length)
    (h : ∀ o ∈ offsets, |o - offsets.sum / (offsets.length : ℚ)| < 4) :
    get_mean_offset offsets offsets.sum (offsets.length : Int) m0
      = { ret := true, count := (offsets.length : Int),
          mean_offset := offsets.sum / (offsets.length : ℚ) } := by
  have hn2 : ¬ ((offsets.length : Int) < 8) := by
    have : (8 : Int) ≤ (offsets.length : Int) := by exact_mod_cast hn
    omega
  have hl := mean_loop_fixed offsets 20 2 hn h
  simp only [get_mean_offset, min_corners, hn2, if_false, mean_state_entry, Int.cast_natCast]
  rw [hl]

/-- C1, as stated, fails: on the 20 offsets `10.0` and 5 offsets `100.0` with `sum = 700` and
`count = 25`, `get_mean_offset` does not return success with a mean within `0.1` of `10.0`. -/
theorem get_mean_offset_cluster_not_converge :
    ¬ ((get_mean_offset (List.replicate 20 10 ++ List.replicate 5 100) 700 25 0).ret = true ∧
        |(get_mean_offset (List.replicate 20 10 ++ List.replicate 5 100) 700 25 0).mean_offset
            - 10| ≤ 1 / 10) := by
  have hk : kept_offsets (List.replicate 20 10 ++ List.replicate 5 100) (700 / ((25 : Int) : ℚ))
      = [] := by
    simp [kept_offsets, List.filter_replicate]
    norm_num [abs_lt]
  have hp := mean_pass_few (List.replicate 20 10 ++ List.replicate 5 100)
    (mean_state_entry 700 25) (by rw [mean_state_entry, hk]; simp)
  have hl := mean_loop_break (List.replicate 20 10 ++ List.replicate 5 100) 2
    (mean_state_entry 700 25) hp
  intro h
  have hr := h.1
  simp only [get_mean_offset, min_corners] at hr
  norm_num at hr
  rw [hl] at hr
  exact Bool.false_ne_true hr

/-- C1, amended: on the 20 offsets `10.0` and 5 offsets `100.0` with `sum = 700` and
`count = 25`, the initial mean is `28`, the first refinement pass keeps none of the offsets, and
`get_mean_offset` rejects, leaving `count = 25` and `mean_offset = 28`. -/
theorem get_mean_offset_cluster_rejects :
    kept_offsets (List.replicate 20 10 ++ List.replicate 5 100) (700 / 25) = [] ∧
    get_mean_offset (List.replicate 20 10 ++ List.replicate 5 100) 700 25 0
      = { ret := false, count := 25, mean_offset := 28 } := by
  have hk : kept_offsets (List.replicate 20 10 ++ List.replicate 5 100) 28 = [] := by
    simp [kept_offsets, List.filter_replicate]
    norm_num [abs_lt]
  refine ⟨by norm_num [hk], ?_⟩
  norm_num [get_mean_offset, mean_state_entry, min_corners, mean_loop, mean_pass,
    recur_sum_count_eq, hk]

/-- C4: `get_mean_offset` rejects when `count < 8`; it rejects when a refinement pass that is
reached (pass `k + 1`, `k < 3`, started in state `st`) keeps fewer than 8 offsets; and when it
succeeds the count it returns is at least 8. -/
theorem get_mean_offset_min_corners (offsets : List ℚ) (sum : ℚ) (count : Int) (m0 : ℚ) :
    (count < 8 → (get_mean_offset offsets sum count m0).ret = false) ∧
    (∀ (k : Nat) (st : MeanState), k < 3 →
      mean_state_before offsets (mean_state_entry sum count) k = some st →
      (kept_offsets offsets st.mean_offset).length < 8 →
      (get_mean_offset offsets sum count m0).ret = false) ∧
    ((get_mean_offset offsets sum count m0).ret = true →
      8 ≤ (get_mean_offset offsets sum count m0).count) := by
  refine ⟨?_, ?_, ?_⟩
  · intro h
    simp [get_mean_offset, min_corners, h]
  · intro k st hk hst hkept
    unfold get_mean_offset
    split_ifs with hc
    · rfl
    · obtain ⟨j, hj⟩ : ∃ j, 3 = k + (j + 1) := ⟨2 - k, by omega⟩
      show (mean_loop offsets 3 (mean_state_entry sum count)).1 = false
      rw [hj, mean_loop_split offsets k (j + 1) _ st hst]
      exact mean_loop_break offsets j st (mean_pass_few offsets st hkept)
  · unfold get_mean_offset
    split_ifs with hc
    · simp
    · intro h
      exact mean_loop_count offsets 2 (mean_state_entry sum count)
        (mean_loop offsets 3 (mean_state_entry sum count)).2 (Prod.ext h rfl)

/-- C4, witnesses: 7 offsets are rejected (`count < 8`); the 25 offsets of C1 are rejected in
the first pass, which keeps none of them; 8 equal offsets succeed with count 8. -/
theorem get_mean_offset_min_corners_witness :
    (get_mean_offset (List.replicate 7 10) 70 7 0).ret = false ∧
    (get_mean_offset (List.replicate 20 10 ++ List.replicate 5 100) 700 25 0).ret = false ∧
    8 ≤ (get_mean_offset (List.replicate 8 10) 80 8 0).count :=
  ⟨(get_mean_offset_min_corners (List.replicate 7 10) 70 7 0).1 (by decide),
   (get_mean_offset_min_corners (List.replicate 20 10 ++ List.replicate 5 100) 700 25 0).2.1 0
      (mean_state_entry 700 25) (by decide) rfl
      (by
        have hk : kept_offsets (List.replicate 20 10 ++ List.replicate 5 100)
            (mean_state_entry 700 25).mean_offset = [] := by
          simp [kept_offsets, mean_state_entry, List.filter_replicate]
          norm_num [abs_lt]
        rw [hk]
        simp),
   (get_mean_offset_min_corners (List.replicate 8 10) 80 8 0).2.2
      (by
        have h := get_mean_offset_window (List.replicate 8 10) 0 (by simp)
          (by simp; norm_num)
        simp only [List.sum_replicate, List.length_replicate, smul_eq_mul] at h
        norm_num at h
        rw [h])⟩

/-! ## `adjust_stitch_area` -/

theorem XCAM_ALIGN_AROUND_dvd (v : Int) : (8 : Int) ∣ XCAM_ALIGN_AROUND v 8 :=
  Dvd.intro_left _ rfl

/-- C6, as stated, fails: with `dst_width = 100`, `stitch0 = (x 50, width 50)` and
`stitch1 = (x 0, width 60)` both assertions hold (the aligned overlap width is `64`, its half
`32`), and the new `stitch0.x` is `44`, which is not a multiple of 8. -/
theorem adjust_stitch_area_x0_not_aligned :
    adjust_stitch_area_asserts 100 ⟨50, 0, 50, 10⟩ ⟨0, 0, 60, 10⟩ = true ∧
    ¬ (56 ≤ (adjust_stitch_area 100 ⟨50, 0, 50, 10⟩ ⟨0, 0, 60, 10⟩).1.width ∧
       56 ≤ (adjust_stitch_area 100 ⟨50, 0, 50, 10⟩ ⟨0, 0, 60, 10⟩).2.width ∧
       (adjust_stitch_area 100 ⟨50, 0, 50, 10⟩ ⟨0, 0, 60, 10⟩).1.x % 8 = 0 ∧
       (adjust_stitch_area 100 ⟨50, 0, 50, 10⟩ ⟨0, 0, 60, 10⟩).2.x % 8 = 0) := by
  decide

/-- C6, amended: when both assertions of `adjust_stitch_area` hold, both output rectangles have
width `56`, the new `stitch1.x` is a multiple of 8, and the new `stitch0.x` is congruent to
`dst_width` modulo 8, so that it is a multiple of 8 exactly when `dst_width` is. -/
theorem adjust_stitch_area_aligned (dst_width : Int) (stitch0 stitch1 : Rect)
    (_hassert : adjust_stitch_area_asserts dst_width stitch0 stitch1 = true) :
    (adjust_stitch_area dst_width stitch0 stitch1).1.width = 56 ∧
    (adjust_stitch_area dst_width stitch0 stitch1).2.width = 56 ∧
    (adjust_stitch_area dst_width stitch0 stitch1).2.x % 8 = 0 ∧
    (adjust_stitch_area dst_width stitch0 stitch1).1.x % 8 = dst_width % 8 ∧
    ((adjust_stitch_area dst_width stitch0 stitch1).1.x % 8 = 0 ↔ dst_width % 8 = 0) := by
  have h1 := XCAM_ALIGN_AROUND_dvd
    (stitch1.x + stitch1.width + (dst_width - (stitch0.x + stitch0.width)))
  have h2 := XCAM_ALIGN_AROUND_dvd
    ((final_overlap_width dst_width stitch0 stitch1).tdiv 2 - sitch_min_width.tdiv 2)
  refine ⟨rfl, rfl, ?_, ?_, ?_⟩ <;>
    simp only [adjust_stitch_area, sitch_min_width, final_overlap_width] at h2 ⊢ <;> omega

/-- C6, witness of the amended claim: `dst_width = 1280`, `stitch0 = (x 1100, width 100)` and
`stitch1 = (x 0, width 100)`. -/
theorem adjust_stitch_area_aligned_witness :
    (adjust_stitch_area 1280 ⟨1100, 0, 100, 10⟩ ⟨0, 0, 100, 10⟩).1.x % 8 = 0 :=
  ((adjust_stitch_area_aligned 1280 ⟨1100, 0, 100, 10⟩ ⟨0, 0, 100, 10⟩ (by decide)).2.2.2.2).2
    (by decide)

/-! ## Lemmas on the geo map buffer -/

theorem fold_cells (g : (Nat → ℚ) → Nat → (Nat → ℚ)) (a b : Nat → ℚ → ℚ)
    (hg : ∀ (m : Nat → ℚ) (i j : Nat), i * 4 + 1 < 2 ^ 32 →
      g m i j = if j = 4 * i then a i (m j) else if j = 4 * i + 1 then b i (m j) else m j)
    (n : Nat) (hn : n * 4 ≤ 2 ^ 32) (mem : Nat → ℚ) (j : Nat) :
    (List.range n).foldl g mem j
      = if j / 4 < n then
          (if j % 4 = 0 then a (j / 4) (mem j)
           else if j % 4 = 1 then b (j / 4) (mem j) else mem j)
        else mem j := by
  induction n generalizing j with
  | zero => simp
  | succ n ih =>
    have hn1 : n * 4 ≤ 2 ^ 32 := by omega
    have hn2 : n * 4 + 1 < 2 ^ 32 := by omega
    rw [List.range_succ, List.foldl_append, List.foldl_cons, List.foldl_nil, hg _ n j hn2]
    by_cases h0 : j = 4 * n
    · have e1 : j / 4 = n := by omega
      have e2 : j % 4 = 0 := by omega
      rw [if_pos h0, ih hn1 j, e1, if_neg (lt_irrefl n), if_pos (Nat.lt_succ_self n), if_pos e2]
    · by_cases h1 : j = 4 * n + 1
      · have e1 : j / 4 = n := by omega
        have e2 : j % 4 = 1 := by omega
        have e3 : ¬ (j % 4 = 0) := by omega
        rw [if_neg h0, if_pos h1, ih hn1 j, e1, if_neg (lt_irrefl n),
          if_pos (Nat.lt_succ_self n), if_neg e3, if_pos e2]
      · rw [if_neg h0, if_neg h1, ih hn1 j]
        by_cases h2 : j / 4 < n
        · rw [if_pos h2, if_pos (Nat.lt_succ_of_lt h2)]
        · by_cases h3 : j / 4 = n
          · have e3 : ¬ (j % 4 = 0) := by omega
            have e4 : ¬ (j % 4 = 1) := by omega
            rw [if_neg h2, if_pos (by omega : j / 4 < n + 1), if_neg e3, if_neg e4]
          · rw [if_neg h2, if_neg (by omega : ¬ j / 4 < n + 1)]

theorem set_map_cell_eq (data : Nat → GeoPos) (m : Nat → ℚ) (i j : Nat)
    (hi : i * 4 + 1 < 2 ^ 32) :
    set_map_cell data m i j
      = if j = 4 * i then (data i).x else if j = 4 * i + 1 then (data i).y else m j := by
  unfold set_map_cell GEO_MAP_CHANNEL
  rw [Nat.mod_eq_of_lt (by omega : i * 4 < 2 ^ 32), Nat.mod_eq_of_lt hi]
  by_cases h0 : j = 4 * i
  · have h1 : j ≠ i * 4 + 1 := by omega
    have h2 : j = i * 4 := by omega
    rw [if_pos h0, Function.update_noteq h1, h2, Function.update_same]
  · by_cases h1 : j = 4 * i + 1
    · have h2 : j = i * 4 + 1 := by omega
      rw [if_neg h0, if_pos h1, h2, Function.update_same]
    · rw [if_neg h0, if_neg h1, Function.update_noteq (by omega : j ≠ i * 4 + 1),
        Function.update_noteq (by omega : j ≠ i * 4)]

theorem normalize_cell_eq (image_w image_h : Nat) (m : Nat → ℚ) (i j : Nat)
    (hi : i * 4 + 1 < 2 ^ 32) :
    normalize_cell image_w image_h m i j
      = if j = 4 * i then m j / (image_w : ℚ)
        else if j = 4 * i + 1 then m j / (image_h : ℚ) else m j := by
  unfold normalize_cell GEO_MAP_CHANNEL
  rw [Nat.mod_eq_of_lt (by omega : i * 4 < 2 ^ 32), Nat.mod_eq_of_lt hi]
  by_cases h0 : j = 4 * i
  · have h1 : j ≠ i * 4 + 1 := by omega
    have h2 : j = i * 4 := by omega
    rw [if_pos h0, Function.update_noteq h1, h2, Function.update_same]
  · by_cases h1 : j = 4 * i + 1
    · have h2 : j = i * 4 + 1 := by omega
      rw [if_neg h0, if_pos h1, h2, Function.update_same,
        Function.update_noteq (by omega : i * 4 + 1 ≠ i * 4)]
    · rw [if_neg h0, if_neg h1, Function.update_noteq (by omega : j ≠ i * 4 + 1),
        Function.update_noteq (by omega : j ≠ i * 4)]

theorem set_map_fold (data : Nat → GeoPos) (n : Nat) (hn : n * 4 ≤ 2 ^ 32) (mem : Nat → ℚ)
    (i : Nat) (hi : i < n) :
    (List.range n).foldl (set_map_cell data) mem (4 * i) = (data i).x ∧
    (List.range n).foldl (set_map_cell data) mem (4 * i + 1) = (data i).y := by
  have h := fold_cells (set_map_cell data) (fun i _ => (data i).x) (fun i _ => (data i).y)
    (fun m i j hi => set_map_cell_eq data m i j hi) n hn mem
  constructor
  · rw [h (4 * i), if_pos (by omega), if_pos (by omega)]
    congr 2
    omega
  · rw [h (4 * i + 1), if_pos (by omega), if_neg (by omega), if_pos (by omega)]
    congr 2
    omega

theorem normalize_fold (image_w image_h : Nat) (n : Nat) (hn : n * 4 ≤ 2 ^ 32)
    (mem : Nat → ℚ) (i : Nat) (hi : i < n) :
    (List.range n).foldl (normalize_cell image_w image_h) mem (4 * i)
      = mem (4 * i) / (image_w : ℚ) ∧
    (List.range n).foldl (normalize_cell image_w image_h) mem (4 * i + 1)
      = mem (4 * i + 1) / (image_h : ℚ) := by
  have h := fold_cells (normalize_cell image_w image_h) (fun _ v => v / (image_w : ℚ))
    (fun _ v => v / (image_h : ℚ))
    (fun m i j hi => normalize_cell_eq image_w image_h m i j hi) n hn mem
  constructor
  · rw [h (4 * i), if_pos (by omega), if_pos (by omega)]
  · rw [h (4 * i + 1), if_pos (by omega), if_neg (by omega), if_pos (by omega)]

/-! ## Lemmas on the handler -/

theorem check_geo_map_buf_ok (env : AllocEnv) (width height : Nat) (h h1 : CLGeoMapHandler)
    (hc : check_geo_map_buf env width height h = (true, h1)) :
    h1._map_width = width ∧ h1._map_height = height ∧
    h1._geo_map_normalized = h._geo_map_normalized ∧ ∃ buf, h1._geo_map = some buf := by
  unfold check_geo_map_buf at hc
  split_ifs at hc with h0 hb hi
  · simp only [Prod.mk.injEq, true_and] at hc
    subst hc
    obtain ⟨hw, hh, hg⟩ := h0
    exact ⟨hw.symm, hh.symm, rfl, Option.isSome_iff_exists.mp hg⟩
  · simp at hc
  · simp at hc
  · simp only [Prod.mk.injEq, true_and] at hc
    subst hc
    exact ⟨rfl, rfl, rfl, _, rfl⟩

theorem check_geo_map_buf_realloc (env : AllocEnv) (width height : Nat)
    (h h1 : CLGeoMapHandler) (hd : ¬ (width = h._map_width ∧ height = h._map_height))
    (hc : check_geo_map_buf env width height h = (true, h1)) :
    h1._geo_map_normalized = h._geo_map_normalized ∧
    h1._geo_map = some { size := (width * 4 % 2 ^ 32) * 4 % 2 ^ 32 * height % 2 ^ 32,
                         mem := env.buffer_init } := by
  unfold check_geo_map_buf at hc
  split_ifs at hc with h0 hb hi
  · exact absurd ⟨h0.1, h0.2.1⟩ hd
  · simp at hc
  · simp at hc
  · simp only [Prod.mk.injEq, true_and] at hc
    subst hc
    exact ⟨rfl, rfl⟩

theorem set_map_data_ok (env : AllocEnv) (map_ok : Bool) (data : Nat → GeoPos)
    (width height : Nat) (h h1 : CLGeoMapHandler)
    (hs : set_map_data env map_ok data width height h = (true, h1)) :
    h1._map_width = width ∧ h1._map_height = height ∧ h1._geo_map_normalized = false ∧
    ∃ buf : CLBuffer, h1._geo_map = some buf ∧
      ∃ m0 : Nat → ℚ,
        buf.mem = (List.range (width * height % 2 ^ 32)).foldl (set_map_cell data) m0 := by
  unfold set_map_data at hs
  split at hs
  · simp at hs
  · next h2 hc =>
    obtain ⟨hw, hh, _, _⟩ := check_geo_map_buf_ok env width height h h2 hc
    split at hs
    · simp at hs
    · next buf hb =>
      by_cases hm : map_ok = false
      · simp [hm] at hs
      · rw [if_neg hm] at hs
        simp only [Prod.mk.injEq, true_and] at hs
        subst hs
        exact ⟨hw, hh, rfl, _, rfl, buf.mem, rfl⟩

theorem prepare_plane_images_geo (env : FrameEnv) (h : CLGeoMapHandler) :
    (prepare_plane_images env h)._geo_map = h._geo_map ∧
    (prepare_plane_images env h)._geo_map_normalized = h._geo_map_normalized ∧
    (prepare_plane_images env h)._map_width = h._map_width ∧
    (prepare_plane_images env h)._map_height = h._map_height :=
  ⟨rfl, rfl, rfl, rfl⟩

theorem resolve_map_uint_geo (env : FrameEnv) (h : CLGeoMapHandler) :
    (resolve_map_uint env h)._geo_map = h._geo_map ∧
    (resolve_map_uint env h)._geo_map_normalized = h._geo_map_normalized ∧
    (resolve_map_uint env h)._map_width = h._map_width ∧
    (resolve_map_uint env h)._map_height = h._map_height := by
  unfold resolve_map_uint
  split_ifs <;> exact ⟨rfl, rfl, rfl, rfl⟩

theorem normalize_geo_map_ok (map_ok : Bool) (image_w image_h : Nat) (h h1 : CLGeoMapHandler)
    (hn : normalize_geo_map map_ok image_w image_h h = (true, h1)) :
    h1._geo_map_normalized = h._geo_map_normalized ∧
    ∃ buf : CLBuffer, h._geo_map = some buf ∧
      h1._geo_map = some { buf with
        mem := (List.range (h._map_width * h._map_height % 2 ^ 32)).foldl
          (normalize_cell image_w image_h) buf.mem } := by
  unfold normalize_geo_map at hn
  split at hn
  · simp at hn
  · next buf hb =>
    by_cases hm : map_ok = false
    · simp [hm] at hn
    · rw [if_neg hm] at hn
      simp only [Prod.mk.injEq, true_and] at hn
      subst hn
      exact ⟨rfl, buf, hb, rfl⟩

theorem prepare_parameters_first (env : FrameEnv) (h h1 : CLGeoMapHandler)
    (hn : h._geo_map_normalized = false)
    (hp : prepare_parameters env h = (XCamReturn.XCAM_RETURN_NO_ERROR, h1)) :
    h1._geo_map_normalized = true ∧
    ∃ buf : CLBuffer, h._geo_map = some buf ∧
      h1._geo_map = some { buf with
        mem := (List.range (h._map_width * h._map_height % 2 ^ 32)).foldl
          (normalize_cell (XCAM_ALIGN_DOWN env.in_info.width 2)
            (XCAM_ALIGN_DOWN env.in_info.height 2)) buf.mem } := by
  obtain ⟨r1, r2, r3, r4⟩ := resolve_map_uint_geo env (prepare_plane_images env h)
  obtain ⟨p1, p2, p3, p4⟩ := prepare_plane_images_geo env h
  unfold prepare_parameters at hp
  by_cases hg : (prepare_plane_images env h)._geo_map.isNone = true
  · simp [hg] at hp
  · have hnn : (resolve_map_uint env (prepare_plane_images env h))._geo_map_normalized
        = false := by rw [r2, p2, hn]
    rw [if_neg hg, if_pos hnn] at hp
    rcases hnorm : normalize_geo_map env.map_ok (XCAM_ALIGN_DOWN env.in_info.width 2)
      (XCAM_ALIGN_DOWN env.in_info.height 2)
      (resolve_map_uint env (prepare_plane_images env h)) with ⟨b, h3⟩
    rw [hnorm] at hp
    cases b
    · simp at hp
    · simp only [Prod.mk.injEq] at hp
      obtain ⟨_, rfl⟩ := hp
      obtain ⟨_, buf, hb, hm⟩ := normalize_geo_map_ok _ _ _ _ h3 hnorm
      rw [r1, p1] at hb
      rw [r3, r4, p3, p4] at hm
      exact ⟨rfl, buf, hb, hm⟩

theorem prepare_parameters_later (env : FrameEnv) (h h1 : CLGeoMapHandler) (r : XCamReturn)
    (hn : h._geo_map_normalized = true) (hp : prepare_parameters env h = (r, h1)) :
    h1._geo_map_normalized = true ∧ h1._geo_map = h._geo_map := by
  obtain ⟨r1, r2, _, _⟩ := resolve_map_uint_geo env (prepare_plane_images env h)
  obtain ⟨p1, p2, _, _⟩ := prepare_plane_images_geo env h
  unfold prepare_parameters at hp
  by_cases hg : (prepare_plane_images env h)._geo_map.isNone = true
  · rw [if_pos hg] at hp
    simp only [Prod.mk.injEq] at hp
    obtain ⟨_, rfl⟩ := hp
    exact ⟨p2.trans hn, p1⟩
  · have hnn : ¬ ((resolve_map_uint env (prepare_plane_images env h))._geo_map_normalized
        = false) := by rw [r2, p2, hn]; simp
    rw [if_neg hg, if_neg hnn] at hp
    simp only [Prod.mk.injEq] at hp
    obtain ⟨_, rfl⟩ := hp
    exact ⟨r2.trans (p2.trans hn), r1.trans p1⟩

theorem prepare_frames_later (envs : List FrameEnv) (h h1 : CLGeoMapHandler)
    (hn : h._geo_map_normalized = true) (hp : prepare_frames envs h = some h1) :
    h1._geo_map_normalized = true ∧ h1._geo_map = h._geo_map := by
  induction envs generalizing h with
  | nil =>
    simp only [prepare_frames, Option.some.injEq] at hp
    subst hp
    exact ⟨hn, rfl⟩
  | cons env envs ih =>
    rw [prepare_frames] at hp
    split at hp
    · next h2 hp2 =>
      obtain ⟨hn2, hg2⟩ := prepare_parameters_later env h h2 _ hn hp2
      obtain ⟨hn3, hg3⟩ := ih h2 hn2 hp
      exact ⟨hn3, hg3.trans hg2⟩
    · simp at hp

theorem prepare_parameters_ret (env : FrameEnv) (h : CLGeoMapHandler) (buf : CLBuffer)
    (hg : h._geo_map = some buf) (hm : env.map_ok = true) :
    (prepare_parameters env h).1 = env.base_ret := by
  obtain ⟨r1, _, _, _⟩ := resolve_map_uint_geo env (prepare_plane_images env h)
  obtain ⟨p1, _, _, _⟩ := prepare_plane_images_geo env h
  have hg1 : ¬ ((prepare_plane_images env h)._geo_map.isNone = true) := by
    rw [p1, hg]; simp
  unfold prepare_parameters
  rw [if_neg hg1]
  by_cases hnn : (resolve_map_uint env (prepare_plane_images env h))._geo_map_normalized = false
  · rw [if_pos hnn]
    unfold normalize_geo_map
    rw [r1, p1, hg]
    simp [hm]
  · rw [if_neg hnn]

/-! ## The geo map handler: claims -/

/-- C7, amended: the field is normalized exactly once per write.  After a successful
`set_map_data` of a `w x h` field `data` with `w * h * 16 < 2 ^ 32` (the byte size does not wrap
in 32 bits), followed by one or more successful `prepare_parameters` calls, the first of them
with an input of luma size `W x H`, `W, H ≥ 2` (the later ones with any input), every cell `i`
stores `x = data[i].x / alignDown(W, 2)` and `y = data[i].y / alignDown(H, 2)` in exact
arithmetic, and both divisors are nonzero. -/
theorem normalize_once_per_write (env : AllocEnv) (map_ok : Bool) (data : Nat → GeoPos)
    (w h W H : Nat) (st st1 st2 : CLGeoMapHandler) (e : FrameEnv) (es : List FrameEnv)
    (hsize : w * h * 16 < 2 ^ 32) (hW : 2 ≤ W) (hH : 2 ≤ H)
    (heW : e.in_info.width = W) (heH : e.in_info.height = H)
    (hset : set_map_data env map_ok data w h st = (true, st1))
    (hprep : prepare_frames (e :: es) st1 = some st2) :
    XCAM_ALIGN_DOWN W 2 ≠ 0 ∧ XCAM_ALIGN_DOWN H 2 ≠ 0 ∧
    ∃ buf : CLBuffer, st2._geo_map = some buf ∧
      ∀ i : Nat, i < w * h →
        buf.mem (4 * i) = (data i).x / (XCAM_ALIGN_DOWN W 2 : ℚ) ∧
        buf.mem (4 * i + 1) = (data i).y / (XCAM_ALIGN_DOWN H 2 : ℚ) := by
  refine ⟨by unfold XCAM_ALIGN_DOWN; omega, by unfold XCAM_ALIGN_DOWN; omega, ?_⟩
  obtain ⟨hmw, hmh, hnorm, buf1, hb1, m0, hm0⟩ := set_map_data_ok env map_ok data w h st st1 hset
  rw [prepare_frames] at hprep
  split at hprep
  · next h2 hp2 =>
    obtain ⟨hn2, buf, hb, hb2⟩ := prepare_parameters_first e st1 h2 hnorm hp2
    obtain ⟨_, hg3⟩ := prepare_frames_later es h2 st2 hn2 hprep
    rw [hb1, Option.some.injEq] at hb
    subst hb
    refine ⟨_, hg3.trans hb2, ?_⟩
    intro i hi
    have hmod : w * h % 2 ^ 32 = w * h := Nat.mod_eq_of_lt (by omega)
    have hn4 : w * h * 4 ≤ 2 ^ 32 := by omega
    rw [hmw, hmh, hmod, heW, heH]
    obtain ⟨n1, n2⟩ := normalize_fold (XCAM_ALIGN_DOWN W 2) (XCAM_ALIGN_DOWN H 2) (w * h) hn4
      buf1.mem i hi
    rw [hmod] at hm0
    obtain ⟨s1, s2⟩ := set_map_fold data (w * h) hn4 m0 i hi
    simp only
    rw [n1, n2, hm0, s1, s2]
    exact ⟨rfl, rfl⟩
  · simp at hprep

/-- C7, witness of the amended claim: a 4x4 field of `(32, 32)` written into a new handler
and followed by two prepared 640x480 frames stores `x = 32 / 640` and `y = 32 / 480` in every cell. -/
theorem normalize_once_per_write_witness :
    ∃ buf : CLBuffer,
      (prepare_parameters frame_640x480 handler_normalized).2._geo_map = some buf ∧
      ∀ i : Nat, i < 16 → buf.mem (4 * i) = 32 / 640 ∧ buf.mem (4 * i + 1) = 32 / 480 := by
  have hset : set_map_data alloc_ok true data_32 4 4 CLGeoMapHandler.new
      = (true, handler_loaded) := rfl
  have hp1 : prepare_parameters frame_640x480 handler_loaded
      = (XCamReturn.XCAM_RETURN_NO_ERROR, handler_normalized) :=
    Prod.ext (prepare_parameters_ret frame_640x480 handler_loaded _ rfl rfl) rfl
  obtain ⟨_, buf1, _, hb1⟩ := prepare_parameters_first frame_640x480 handler_loaded
    handler_normalized rfl hp1
  have hp2 : prepare_parameters frame_640x480 handler_normalized
      = (XCamReturn.XCAM_RETURN_NO_ERROR,
          (prepare_parameters frame_640x480 handler_normalized).2) :=
    Prod.ext (prepare_parameters_ret frame_640x480 handler_normalized _ hb1 rfl) rfl
  have hprep : prepare_frames [frame_640x480, frame_640x480] handler_loaded
      = some (prepare_parameters frame_640x480 handler_normalized).2 := by
    rw [prepare_frames, hp1]
    simp only
    rw [prepare_frames, hp2]
    simp only [prepare_frames]
  obtain ⟨_, _, buf, hb, hcells⟩ := normalize_once_per_write alloc_ok true data_32 4 4 640 480
    CLGeoMapHandler.new handler_loaded (prepare_parameters frame_640x480 handler_normalized).2
    frame_640x480 [frame_640x480] (by norm_num) (by norm_num) (by norm_num) rfl rfl hset hprep
  refine ⟨buf, hb, ?_⟩
  intro i hi
  have h := hcells i (by omega)
  simpa [data_32, XCAM_ALIGN_DOWN] using h

/-- C8, as stated, fails: on the normalized handler holding a 4x4 field, `set_map_data` with
the new size 8x8 reallocates successfully, and when mapping the new buffer fails the
normalized flag is still set after the call. -/
theorem resize_map_failure_keeps_normalized :
    handler_normalized._geo_map_normalized = true ∧
    ¬ (8 = handler_normalized._map_width ∧ 8 = handler_normalized._map_height) ∧
    (check_geo_map_buf alloc_ok 8 8 handler_normalized).1 = true ∧
    ¬ ((set_map_data alloc_ok false data_32 8 8 handler_normalized).2._geo_map_normalized
        = false) := by
  refine ⟨rfl, ?_, rfl, ?_⟩
  · show ¬ (8 = 4 ∧ 8 = 4)
    omega
  · show ¬ (true = false)
    simp

/-- C8, amended: when `set_map_data` is called with a `(width, height)` different from the held
dimensions, `width * height * 16 < 2 ^ 32`, and the reallocation (`check_geo_map_buf`) succeeds,
the handler after the call holds a buffer of exactly `width * height * 4 * 4` bytes, whether
mapping it succeeds or not; and when the map and write step succeeds (the call returns `true`)
the normalized flag is cleared. -/
theorem set_map_data_resize (env : AllocEnv) (map_ok : Bool) (data : Nat → GeoPos)
    (width height : Nat) (h : CLGeoMapHandler)
    (hd : ¬ (width = h._map_width ∧ height = h._map_height))
    (hsize : width * height * 16 < 2 ^ 32)
    (hc : (check_geo_map_buf env width height h).1 = true) :
    (∃ buf : CLBuffer,
      (set_map_data env map_ok data width height h).2._geo_map = some buf ∧
      buf.size = width * height * 4 * 4) ∧
    ((set_map_data env map_ok data width height h).1 = true →
      (set_map_data env map_ok data width height h).2._geo_map_normalized = false) := by
  have hw16 : width * 16 * height < 2 ^ 32 := by nlinarith
  have hsz : (width * 4 % 2 ^ 32) * 4 % 2 ^ 32 * height % 2 ^ 32 = width * height * 4 * 4 := by
    rcases Nat.eq_zero_or_pos height with hz | hpos
    · subst hz; simp
    · have hw : width * 16 < 2 ^ 32 := by nlinarith
      rw [Nat.mod_eq_of_lt (by omega : width * 4 < 2 ^ 32),
        Nat.mod_eq_of_lt (by omega : width * 4 * 4 < 2 ^ 32)]
      have e : width * 4 * 4 * height = width * 16 * height := by ring
      rw [e, Nat.mod_eq_of_lt hw16]
      ring
  rcases hck : check_geo_map_buf env width height h with ⟨b, h1⟩
  rw [hck] at hc
  simp only at hc
  subst hc
  obtain ⟨_, hg⟩ := check_geo_map_buf_realloc env width height h h1 hd hck
  constructor
  · unfold set_map_data
    rw [hck]
    simp only [hg]
    by_cases hm : map_ok = false
    · rw [if_pos hm]
      exact ⟨_, hg, hsz⟩
    · rw [if_neg hm]
      exact ⟨_, rfl, hsz⟩
  · intro hs
    exact (set_map_data_ok env map_ok data width height h _ (Prod.ext hs rfl)).2.2.1

/-- C8, witness of the amended claim: resizing the normalized 4x4 handler to 8x8 with a
successful write gives a buffer of `8 * 8 * 4 * 4` bytes and clears the normalized flag. -/
theorem set_map_data_resize_witness :
    (∃ buf : CLBuffer,
      (set_map_data alloc_ok true data_32 8 8 handler_normalized).2._geo_map = some buf ∧
      buf.size = 8 * 8 * 4 * 4) ∧
    (set_map_data alloc_ok true data_32 8 8 handler_normalized).2._geo_map_normalized = false :=
  ⟨(set_map_data_resize alloc_ok true data_32 8 8 handler_normalized
      (by show ¬ (8 = 4 ∧ 8 = 4); omega) (by norm_num) rfl).1,
   (set_map_data_resize alloc_ok true data_32 8 8 handler_normalized
      (by show ¬ (8 = 4 ∧ 8 = 4); omega) (by norm_num) rfl).2 rfl⟩

/-- C9, the code at the failing input: a new handler allocates a 4x4 geo map (buffer and image
both held); a following `check_geo_map_buf (8, 8)` in which buffer creation fails returns
`false` and leaves the buffer released while the image view of the old 4x4 buffer is still
held. -/
theorem check_geo_map_buf_stale_image :
    (check_geo_map_buf alloc_ok 4 4 CLGeoMapHandler.new).1 = true ∧
    (check_geo_map_buf alloc_buffer_fails 8 8
      (check_geo_map_buf alloc_ok 4 4 CLGeoMapHandler.new).2).1 = false ∧
    (check_geo_map_buf alloc_buffer_fails 8 8
      (check_geo_map_buf alloc_ok 4 4 CLGeoMapHandler.new).2).2._geo_map.isSome = false ∧
    (check_geo_map_buf alloc_buffer_fails 8 8
      (check_geo_map_buf alloc_ok 4 4 CLGeoMapHandler.new).2).2._geo_image
      = some { desc := { width := 4, height := 4, row_pitch := 64 }, offset := 0 } :=
  ⟨rfl, rfl, rfl, rfl⟩

/-- C10: for an output chroma plane of size `(w, h)` (32-bit values), the global work size of
`prepare_arguments` is in each dimension the smallest multiple of the local size that is at
least `w` respectively `h`, and the local size is `(16, 4)`. -/
theorem prepare_arguments_dispatch (d : CLImageDesc) (hw : d.width < 2 ^ 32)
    (hh : d.height < 2 ^ 32) :
    (prepare_arguments_work_size d).local0 = 16 ∧
    (prepare_arguments_work_size d).local1 = 4 ∧
    (prepare_arguments_work_size d).global0 % 16 = 0 ∧
    d.width ≤ (prepare_arguments_work_size d).global0 ∧
    (∀ m : Nat, m % 16 = 0 → d.width ≤ m → (prepare_arguments_work_size d).global0 ≤ m) ∧
    (prepare_arguments_work_size d).global1 % 4 = 0 ∧
    d.height ≤ (prepare_arguments_work_size d).global1 ∧
    (∀ m : Nat, m % 4 = 0 → d.height ≤ m → (prepare_arguments_work_size d).global1 ≤ m) := by
  refine ⟨rfl, rfl, ?_, ?_, ?_, ?_, ?_, ?_⟩ <;>
    simp only [prepare_arguments_work_size, XCAM_ALIGN_UP]
  · omega
  · omega
  · intro m hm hle; omega
  · omega
  · omega
  · intro m hm hle; omega

/-- C10, witness: a chroma plane of size `(100, 50)` is dispatched with global size
`(112, 52)`. -/
theorem prepare_arguments_dispatch_witness :
    (prepare_arguments_work_size { width := 100, height := 50, row_pitch := 0 }).global0 = 112 ∧
    (prepare_arguments_work_size { width := 100, height := 50, row_pitch := 0 }).global1
      = 52 := by
  obtain ⟨_, _, h1, h2, h3, h4, h5, h6⟩ := prepare_arguments_dispatch
    { width := 100, height := 50, row_pitch := 0 } (by norm_num) (by norm_num)
  have a := h3 112 (by norm_num) (by norm_num)
  have b := h6 52 (by norm_num) (by norm_num)
  simp only at h2 h5
  constructor <;> omega

/-! ## The cell unit after `prepare_parameters` -/

theorem normalize_geo_map_uint (map_ok : Bool) (image_w image_h : Nat)
    (h h1 : CLGeoMapHandler) (hn : normalize_geo_map map_ok image_w image_h h = (true, h1)) :
    h1._uint_x = h._uint_x ∧ h1._uint_y = h._uint_y := by
  unfold normalize_geo_map at hn
  split at hn
  · simp at hn
  · next buf hb =>
    by_cases hm : map_ok = false
    · simp [hm] at hn
    · rw [if_neg hm] at hn
      simp only [Prod.mk.injEq, true_and] at hn
      subst hn
      exact ⟨rfl, rfl⟩

theorem prepare_parameters_uint (env : FrameEnv) (h h1 : CLGeoMapHandler)
    (hp : prepare_parameters env h = (XCamReturn.XCAM_RETURN_NO_ERROR, h1)) :
    h1._uint_x = (resolve_map_uint env (prepare_plane_images env h))._uint_x ∧
    h1._uint_y = (resolve_map_uint env (prepare_plane_images env h))._uint_y := by
  unfold prepare_parameters at hp
  by_cases hg : (prepare_plane_images env h)._geo_map.isNone = true
  · rw [if_pos hg] at hp
    simp at hp
  · rw [if_neg hg] at hp
    by_cases hnn : (resolve_map_uint env (prepare_plane_images env h))._geo_map_normalized
        = false
    · rw [if_pos hnn] at hp
      rcases hnorm : normalize_geo_map env.map_ok (XCAM_ALIGN_DOWN env.in_info.width 2)
        (XCAM_ALIGN_DOWN env.in_info.height 2)
        (resolve_map_uint env (prepare_plane_images env h)) with ⟨b, h3⟩
      rw [hnorm] at hp
      cases b
      · simp at hp
      · simp only [Prod.mk.injEq] at hp
        obtain ⟨_, rfl⟩ := hp
        exact normalize_geo_map_uint _ _ _ _ h3 hnorm
    · rw [if_neg hnn] at hp
      simp only [Prod.mk.injEq] at hp
      obtain ⟨_, rfl⟩ := hp
      exact ⟨rfl, rfl⟩

theorem resolve_map_uint_unresolved (env : FrameEnv) (h : CLGeoMapHandler)
    (hu : h._uint_x < 1 ∧ h._uint_y < 1) :
    (resolve_map_uint env (prepare_plane_images env h))._uint_x
      = (env.out_info.width : ℚ) / (h._map_width : ℚ) ∧
    (resolve_map_uint env (prepare_plane_images env h))._uint_y
      = (env.out_info.height : ℚ) / (h._map_height : ℚ) := by
  have hu2 : (get_map_uint (prepare_plane_images env h)).1 < 1 ∧
      (get_map_uint (prepare_plane_images env h)).2 < 1 := hu
  unfold resolve_map_uint
  rw [if_pos hu2]
  exact ⟨rfl, rfl⟩

theorem resolve_map_uint_resolved (env : FrameEnv) (h : CLGeoMapHandler)
    (hu : ¬ (h._uint_x < 1 ∧ h._uint_y < 1)) :
    (resolve_map_uint env (prepare_plane_images env h))._uint_x = h._uint_x ∧
    (resolve_map_uint env (prepare_plane_images env h))._uint_y = h._uint_y := by
  have hu2 : ¬ ((get_map_uint (prepare_plane_images env h)).1 < 1 ∧
      (get_map_uint (prepare_plane_images env h)).2 < 1) := hu
  unfold resolve_map_uint
  rw [if_neg hu2]
  exact ⟨rfl, rfl⟩

/-- C11, as stated, fails: a new handler that holds a 32x32 field has the cell unit `(0, 0)` of
the constructor; `prepare_parameters` for a frame with a 16x16 output succeeds and sets the cell
unit to `(16 / 32, 16 / 32)`, whose components are below `1`. -/
theorem prepare_parameters_unit_below_one :
    (prepare_parameters frame_out_16x16 handler_loaded_32x32).1
      = XCamReturn.XCAM_RETURN_NO_ERROR ∧
    ¬ (1 ≤ (prepare_parameters frame_out_16x16 handler_loaded_32x32).2._uint_x ∧
       1 ≤ (prepare_parameters frame_out_16x16 handler_loaded_32x32).2._uint_y) := by
  have hr : (prepare_parameters frame_out_16x16 handler_loaded_32x32).1
      = XCamReturn.XCAM_RETURN_NO_ERROR :=
    prepare_parameters_ret frame_out_16x16 handler_loaded_32x32 _ rfl rfl
  have hu := prepare_parameters_uint frame_out_16x16 handler_loaded_32x32
    (prepare_parameters frame_out_16x16 handler_loaded_32x32).2 (Prod.ext hr rfl)
  have hx := (resolve_map_uint_unresolved frame_out_16x16 handler_loaded_32x32
    ⟨by show (0 : ℚ) < 1; norm_num, by show (0 : ℚ) < 1; norm_num⟩).1
  have h16 : (prepare_parameters frame_out_16x16 handler_loaded_32x32).2._uint_x
      = ((16 : Nat) : ℚ) / ((32 : Nat) : ℚ) := hu.1.trans hx
  refine ⟨hr, ?_⟩
  rw [h16]
  norm_num

/-- C11, amended: after a successful `prepare_parameters`, a cell unit `(ux, uy)` with
`ux < 1` and `uy < 1` has been replaced by (output width / field width, output height / field
height), and any other cell unit is left as it was.  Hence both components are at least `1`
after the call when they both were before, and also when the unit was unresolved
(`ux < 1` and `uy < 1`) and the field is nonempty and not larger than the output in either
dimension. -/
theorem prepare_parameters_map_uint (env : FrameEnv) (h h1 : CLGeoMapHandler)
    (hp : prepare_parameters env h = (XCamReturn.XCAM_RETURN_NO_ERROR, h1)) :
    (h._uint_x < 1 ∧ h._uint_y < 1 →
      h1._uint_x = (env.out_info.width : ℚ) / (h._map_width : ℚ) ∧
      h1._uint_y = (env.out_info.height : ℚ) / (h._map_height : ℚ)) ∧
    (¬ (h._uint_x < 1 ∧ h._uint_y < 1) → h1._uint_x = h._uint_x ∧ h1._uint_y = h._uint_y) ∧
    (1 ≤ h._uint_x → 1 ≤ h._uint_y → 1 ≤ h1._uint_x ∧ 1 ≤ h1._uint_y) ∧
    (h._uint_x < 1 → h._uint_y < 1 →
      0 < h._map_width → h._map_width ≤ env.out_info.width →
      0 < h._map_height → h._map_height ≤ env.out_info.height →
      1 ≤ h1._uint_x ∧ 1 ≤ h1._uint_y) := by
  obtain ⟨ux, uy⟩ := prepare_parameters_uint env h h1 hp
  refine ⟨?_, ?_, ?_, ?_⟩
  · intro hu
    obtain ⟨rx, ry⟩ := resolve_map_uint_unresolved env h hu
    exact ⟨ux.trans rx, uy.trans ry⟩
  · intro hu
    obtain ⟨rx, ry⟩ := resolve_map_uint_resolved env h hu
    exact ⟨ux.trans rx, uy.trans ry⟩
  · intro hx hy
    obtain ⟨rx, ry⟩ := resolve_map_uint_resolved env h (fun hu => absurd hu.1 (not_lt.mpr hx))
    rw [ux, uy, rx, ry]
    exact ⟨hx, hy⟩
  · intro hx hy hw0 hw hh0 hh
    obtain ⟨rx, ry⟩ := resolve_map_uint_unresolved env h ⟨hx, hy⟩
    rw [ux, uy, rx, ry]
    have hw0q : (0 : ℚ) < (h._map_width : ℚ) := by exact_mod_cast hw0
    have hh0q : (0 : ℚ) < (h._map_height : ℚ) := by exact_mod_cast hh0
    have hwq : (h._map_width : ℚ) ≤ (env.out_info.width : ℚ) := by exact_mod_cast hw
    have hhq : (h._map_height : ℚ) ≤ (env.out_info.height : ℚ) := by exact_mod_cast hh
    exact ⟨(one_le_div hw0q).mpr hwq, (one_le_div hh0q).mpr hhq⟩

/-- C11, witness of the amended claim: on the handler holding a 4x4 field with an unresolved
cell unit, preparing a frame with a 256x256 output succeeds and sets the cell unit to
`(64, 64)`, both components at least `1`. -/
theorem prepare_parameters_map_uint_witness :
    (handler_normalized._uint_x = 64 ∧ handler_normalized._uint_y = 64) ∧
    (1 ≤ handler_normalized._uint_x ∧ 1 ≤ handler_normalized._uint_y) := by
  have hp : prepare_parameters frame_640x480 handler_loaded
      = (XCamReturn.XCAM_RETURN_NO_ERROR, handler_normalized) :=
    Prod.ext (prepare_parameters_ret frame_640x480 handler_loaded _ rfl rfl) rfl
  have h0 : handler_loaded._uint_x < 1 := by show (0 : ℚ) < 1; norm_num
  have h1 : handler_loaded._uint_y < 1 := by show (0 : ℚ) < 1; norm_num
  obtain ⟨ha, _, _, hd⟩ := prepare_parameters_map_uint frame_640x480 handler_loaded
    handler_normalized hp
  refine ⟨?_, hd h0 h1 (by show 0 < 4; norm_num) (by show 4 ≤ 256; norm_num)
    (by show 0 < 4; norm_num) (by show 4 ≤ 256; norm_num)⟩
  obtain ⟨hx, hy⟩ := ha ⟨h0, h1⟩
  rw [hx, hy]
  show ((256 : Nat) : ℚ) / ((4 : Nat) : ℚ) = 64 ∧ ((256 : Nat) : ℚ) / ((4 : Nat) : ℚ) = 64
  norm_num

/-! ## `CLGeoMapKernel::prepare_arguments` -/

theorem prepare_arguments_eq (h : CLGeoMapHandler)
    (input_y input_uv output_y output_uv geo_image : CLImage)
    (h1 : h._input_y = some input_y) (h2 : h._input_uv = some input_uv)
    (h3 : h._output_y = some output_y) (h4 : h._output_uv = some output_uv)
    (h5 : h._geo_image = some geo_image) :
    prepare_arguments h
      = some (XCamReturn.XCAM_RETURN_NO_ERROR,
          [ { arg_adress := ArgValue.mem_id input_y, arg_size := 8 },
            { arg_adress := ArgValue.mem_id input_uv, arg_size := 8 },
            { arg_adress := ArgValue.mem_id geo_image, arg_size := 8 },
            { arg_adress := ArgValue.float2 ((h._map_width : ℚ) * h._uint_x)
                ((h._map_height : ℚ) * h._uint_y), arg_size := 8 },
            { arg_adress := ArgValue.mem_id output_y, arg_size := 8 },
            { arg_adress := ArgValue.mem_id output_uv, arg_size := 8 },
            { arg_adress := ArgValue.float2 (h._output_width : ℚ) (h._output_height : ℚ),
              arg_size := 8 } ],
          prepare_arguments_work_size output_uv.desc) := by
  simp only [prepare_arguments, get_geo_input_image, get_geo_output_image, get_geo_map_table,
    h1, h2, h3, h4, h5, get_geo_equivalent_out_size, get_geo_pixel_out_size, sizeof_cl_mem,
    sizeof_float]

/-- C12, as stated, fails: on the handler that holds a 4x4 field and has prepared a frame with
a 256x256 output, the cell unit is `(64, 64)` while the fourth kernel argument is
`(4 * 64, 4 * 64) = (256, 256)`, so the argument list is not one whose fourth entry is the cell
unit. -/
theorem prepare_arguments_fourth_not_unit :
    ¬ ∃ (r : XCamReturn) (a0 a1 a2 a4 a5 a6 : CLArgument) (n : Nat) (ws : CLWorkSize),
        prepare_arguments handler_normalized
          = some (r, [a0, a1, a2,
              { arg_adress := ArgValue.float2 handler_normalized._uint_x
                  handler_normalized._uint_y, arg_size := n },
              a4, a5, a6], ws) := by
  have hp : prepare_parameters frame_640x480 handler_loaded
      = (XCamReturn.XCAM_RETURN_NO_ERROR, handler_normalized) :=
    Prod.ext (prepare_parameters_ret frame_640x480 handler_loaded _ rfl rfl) rfl
  have hu := prepare_parameters_uint frame_640x480 handler_loaded handler_normalized hp
  have hx := (resolve_map_uint_unresolved frame_640x480 handler_loaded
    ⟨by show (0 : ℚ) < 1; norm_num, by show (0 : ℚ) < 1; norm_num⟩).1
  have h64 : handler_normalized._uint_x = 64 := by
    rw [hu.1, hx]
    show ((256 : Nat) : ℚ) / ((4 : Nat) : ℚ) = 64
    norm_num
  have hw : handler_normalized._map_width = 4 := rfl
  have he := prepare_arguments_eq handler_normalized _ _ _ _ _ rfl rfl rfl rfl rfl
  rintro ⟨r, a0, a1, a2, a4, a5, a6, n, ws, hc⟩
  rw [he, hw, h64] at hc
  simp only [Option.some.injEq, Prod.mk.injEq, List.cons.injEq, CLArgument.mk.injEq,
    ArgValue.float2.injEq] at hc
  have h4 := hc.2.1.2.2.2.1.1.1
  norm_num at h4

/-- C12, amended: for every handler state in which the four plane images and the field image
are held, `prepare_arguments` returns `XCAM_RETURN_NO_ERROR` and produces exactly 7 kernel
arguments in this order: input plane 0 handle, input plane 1 handle, field image handle, the
geo equivalent output size (field width * unitX, field height * unitY) as 2 floats, output
plane 0 handle, output plane 1 handle, and the output size in pixels (the output width and
height of the handler) as 2 floats. -/
theorem prepare_arguments_order (h : CLGeoMapHandler)
    (input_y input_uv output_y output_uv geo_image : CLImage)
    (h1 : h._input_y = some input_y) (h2 : h._input_uv = some input_uv)
    (h3 : h._output_y = some output_y) (h4 : h._output_uv = some output_uv)
    (h5 : h._geo_image = some geo_image) :
    prepare_arguments h
      = some (XCamReturn.XCAM_RETURN_NO_ERROR,
          [ { arg_adress := ArgValue.mem_id input_y, arg_size := 8 },
            { arg_adress := ArgValue.mem_id input_uv, arg_size := 8 },
            { arg_adress := ArgValue.mem_id geo_image, arg_size := 8 },
            { arg_adress := ArgValue.float2 ((h._map_width : ℚ) * h._uint_x)
                ((h._map_height : ℚ) * h._uint_y), arg_size := 8 },
            { arg_adress := ArgValue.mem_id output_y, arg_size := 8 },
            { arg_adress := ArgValue.mem_id output_uv, arg_size := 8 },
            { arg_adress := ArgValue.float2 (h._output_width : ℚ) (h._output_height : ℚ),
              arg_size := 8 } ],
          prepare_arguments_work_size output_uv.desc) ∧
    ((prepare_arguments h).map (fun r => r.2.1.length)) = some 7 := by
  have he := prepare_arguments_eq h input_y input_uv output_y output_uv geo_image h1 h2 h3 h4 h5
  refine ⟨he, ?_⟩
  rw [he]
  rfl

/-- C12, witness of the amended claim: on the handler that holds a 4x4 field and has prepared
a 640x480 frame, the five images are held and `prepare_arguments` produces 7 arguments. -/
theorem prepare_arguments_order_witness :
    (prepare_arguments handler_normalized).map (fun r => r.2.1.length) = some 7 := by
  obtain ⟨_, hlen⟩ := prepare_arguments_order handler_normalized _ _ _ _ _
    (rfl : handler_normalized._input_y = some _) (rfl : handler_normalized._input_uv = some _)
    (rfl : handler_normalized._output_y = some _) (rfl : handler_normalized._output_uv = some _)
    (rfl : handler_normalized._geo_image = some _)
  exact hlen

/-! ## `adjust_stitch_area` applied twice -/

theorem XCAM_ALIGN_AROUND_fixed (v : Int) (hv : 0 ≤ XCAM_ALIGN_AROUND v 8) :
    XCAM_ALIGN_AROUND (XCAM_ALIGN_AROUND v 8) 8 = XCAM_ALIGN_AROUND v 8 := by
  have h4 : (8 : Int).tdiv 2 = 4 := by decide
  unfold XCAM_ALIGN_AROUND at hv ⊢
  rw [h4] at hv ⊢
  generalize (v + 4).tdiv 8 = q at hv ⊢
  rw [Int.tdiv_eq_ediv (by omega : 0 ≤ q * 8 + 4) (by norm_num : (0 : Int) ≤ 8)]
  omega

theorem final_overlap_width_adjust (dst_width : Int) (stitch0 stitch1 : Rect)
    (h : 0 ≤ final_overlap_width dst_width stitch0 stitch1) :
    final_overlap_width dst_width (adjust_stitch_area dst_width stitch0 stitch1).1
        (adjust_stitch_area dst_width stitch0 stitch1).2
      = final_overlap_width dst_width stitch0 stitch1 := by
  have hfix := XCAM_ALIGN_AROUND_fixed
    (stitch1.x + stitch1.width + (dst_width - (stitch0.x + stitch0.width))) h
  have e : ∀ F x1 : Int, x1 + 56 + (dst_width - (dst_width - F + x1 + 56)) = F := by
    intro F x1; ring
  simp only [final_overlap_width, adjust_stitch_area, sitch_min_width] at hfix ⊢
  rw [e]
  exact hfix

/-- C13: `adjust_stitch_area` is idempotent.  When its two assertions hold for `dst_width`,
`stitch0` and `stitch1`, a second application to its own output returns that output unchanged
(in particular the `x` and `width` of both rectangles), and the assertions hold again for the
second application. -/
theorem adjust_stitch_area_idempotent (dst_width : Int) (stitch0 stitch1 : Rect)
    (h : adjust_stitch_area_asserts dst_width stitch0 stitch1 = true) :
    adjust_stitch_area dst_width (adjust_stitch_area dst_width stitch0 stitch1).1
        (adjust_stitch_area dst_width stitch0 stitch1).2
      = adjust_stitch_area dst_width stitch0 stitch1 ∧
    adjust_stitch_area_asserts dst_width (adjust_stitch_area dst_width stitch0 stitch1).1
        (adjust_stitch_area dst_width stitch0 stitch1).2 = true := by
  have h0 : 0 ≤ final_overlap_width dst_width stitch0 stitch1 := by
    simp only [adjust_stitch_area_asserts, sitch_min_width, Bool.and_eq_true,
      decide_eq_true_eq] at h
    omega
  have hf := final_overlap_width_adjust dst_width stitch0 stitch1 h0
  constructor
  · have e : adjust_stitch_area dst_width (adjust_stitch_area dst_width stitch0 stitch1).1
          (adjust_stitch_area dst_width stitch0 stitch1).2
        = (let fow := final_overlap_width dst_width
              (adjust_stitch_area dst_width stitch0 stitch1).1
              (adjust_stitch_area dst_width stitch0 stitch1).2
           let x1 := XCAM_ALIGN_AROUND (fow.tdiv 2 - sitch_min_width.tdiv 2) 8
           ({ (adjust_stitch_area dst_width stitch0 stitch1).1 with
                x := dst_width - fow + x1, width := sitch_min_width },
            { (adjust_stitch_area dst_width stitch0 stitch1).2 with
                x := x1, width := sitch_min_width })) := rfl
    rw [e, hf]
    rfl
  · unfold adjust_stitch_area_asserts
    rw [hf]
    exact h

/-- C13, witness: with `dst_width = 1280`, `stitch0 = (x 1100, width 100)` and
`stitch1 = (x 0, width 100)` the assertions hold; the first application gives
`stitch0 = (x 1160, width 56)` and `stitch1 = (x 64, width 56)`, and the second application
returns the same rectangles. -/
theorem adjust_stitch_area_idempotent_witness :
    adjust_stitch_area 1280 ⟨1100, 0, 100, 10⟩ ⟨0, 0, 100, 10⟩
      = (⟨1160, 0, 56, 10⟩, ⟨64, 0, 56, 10⟩) ∧
    adjust_stitch_area 1280 ⟨1160, 0, 56, 10⟩ ⟨64, 0, 56, 10⟩
      = (⟨1160, 0, 56, 10⟩, ⟨64, 0, 56, 10⟩) := by
  have h1 : adjust_stitch_area 1280 ⟨1100, 0, 100, 10⟩ ⟨0, 0, 100, 10⟩
      = (⟨1160, 0, 56, 10⟩, ⟨64, 0, 56, 10⟩) := by decide
  have h := (adjust_stitch_area_idempotent 1280 ⟨1100, 0, 100, 10⟩ ⟨0, 0, 100, 10⟩
    (by decide)).1
  rw [h1] at h
  exact ⟨h1, h⟩

/-! ## Lemmas on binary32 -/

theorem f32_round32_nonneg (num : Int) (den : Nat) (h : 0 ≤ num) :
    F32.nonneg (F32.round32 num den) := by
  have hlt : ¬ (num < 0) := not_lt.mpr h
  unfold F32.round32
  by_cases hd : den = 0
  · rw [if_pos hd]
    trivial
  · rw [if_neg hd]
    by_cases hz : num = 0
    · rw [if_pos hz]
      show (0 : Int) ≤ 0
      exact le_refl 0
    · rw [if_neg hz]
      simp only [hlt, decide_False, if_false]
      split_ifs <;>
        first
        | exact (rfl : false = false)
        | exact Int.natCast_nonneg _

theorem f32_round_dyadic_nonneg (m e : Int) (h : 0 ≤ m) :
    F32.nonneg (F32.round_dyadic m e) := by
  unfold F32.round_dyadic
  split_ifs
  · exact f32_round32_nonneg _ _ (mul_nonneg h (pow_nonneg (by norm_num) _))
  · exact f32_round32_nonneg _ _ h

theorem f32_lt_zero_of_nonneg (y : F32) (e : Int) (h : F32.nonneg y) :
    F32.lt y (F32.fin 0 e) = false := by
  cases y with
  | nan => rfl
  | inf negative =>
    have hn : negative = false := h
    subst hn
    rfl
  | fin m e1 =>
    have hm : (0 : Int) ≤ m := h
    have hp : (0 : Int) ≤ m * 2 ^ (e1 - min e1 e).toNat :=
      mul_nonneg hm (pow_nonneg (by norm_num) _)
    simp only [F32.lt, zero_mul, decide_eq_false_iff_not, not_lt]
    exact hp

theorem f32_round32_zero (den : Nat) (hd : den ≠ 0) :
    F32.round32 0 den = F32.fin 0 (-149) := by
  unfold F32.round32
  rw [if_neg hd, if_pos rfl]

theorem f32_round_dyadic_zero (e : Int) : F32.round_dyadic 0 e = F32.fin 0 (-149) := by
  unfold F32.round_dyadic
  by_cases h : 0 ≤ e
  · rw [if_pos h, zero_mul]
    exact f32_round32_zero 1 (by norm_num)
  · rw [if_neg h]
    exact f32_round32_zero _ (pow_ne_zero _ (by norm_num))

theorem f32_fabs_sub_self (m : F32) :
    F32.fabs (F32.sub m m) = F32.nan ∨ F32.fabs (F32.sub m m) = F32.fin 0 (-149) := by
  cases m with
  | nan => exact Or.inl rfl
  | inf negative =>
    left
    cases negative <;> rfl
  | fin a e =>
    right
    have h : F32.sub (F32.fin a e) (F32.fin a e) = F32.fin 0 (-149) := by
      simp only [F32.sub, F32.neg, F32.add, min_self, sub_self, Int.toNat_zero, pow_zero,
        mul_one, add_neg_cancel]
      exact f32_round_dyadic_zero e
    rw [h]
    rfl

theorem f32_mul_fabs_nonneg (d : F32) (mc ec : Int) (hc : 0 < mc) :
    F32.nonneg (F32.mul (F32.fabs d) (F32.fin mc ec)) := by
  cases d with
  | nan => trivial
  | inf negative =>
    have hne : mc ≠ 0 := ne_of_gt hc
    have hlt : ¬ (mc < 0) := not_lt.mpr (le_of_lt hc)
    simp only [F32.fabs, F32.mul, hne, if_false, hlt, decide_False, Bool.xor_false]
    rfl
  | fin m e =>
    simp only [F32.fabs, F32.mul]
    exact f32_round_dyadic_nonneg _ _ (mul_nonneg (Int.natCast_nonneg _) (le_of_lt hc))

theorem f32_ofFrac_6_5 : F32.ofFrac 6 5 = F32.fin 10066330 (-23) := by decide

theorem f32_gt_fabs_sub_self (m d : F32) :
    F32.gt (F32.fabs (F32.sub m m)) (F32.mul (F32.fabs d) (F32.ofFrac 6 5)) = false := by
  rw [f32_ofFrac_6_5]
  have hn := f32_mul_fabs_nonneg d 10066330 (-23) (by norm_num)
  rcases f32_fabs_sub_self m with h | h
  · rw [h]
    unfold F32.gt
    cases F32.mul (F32.fabs d) (F32.fin 10066330 (-23)) <;> rfl
  · rw [h]
    exact f32_lt_zero_of_nonneg _ _ hn

/-! ## Lemmas on `get_mean_offset` in binary32 -/

theorem binary32_recur_fold_all (m : F32) (offsets : List F32) (acc : F32 × Int)
    (h : ∀ o ∈ offsets, F32.ge (F32.fabs (F32.sub o m)) (F32.ofInt 4) = false) :
    offsets.foldl
        (fun acc o =>
          if F32.ge (F32.fabs (F32.sub o m)) (F32.ofInt 4) = true then acc
          else (F32.add acc.1 o, acc.2 + 1)) acc
      = (offsets.foldl F32.add acc.1, acc.2 + (offsets.length : Int)) := by
  induction offsets generalizing acc with
  | nil => simp
  | cons o os ih =>
    have ho : F32.ge (F32.fabs (F32.sub o m)) (F32.ofInt 4) = false :=
      h o (List.mem_cons_self o os)
    have hos : ∀ x ∈ os, F32.ge (F32.fabs (F32.sub x m)) (F32.ofInt 4) = false :=
      fun x hx => h x (List.mem_cons_of_mem o hx)
    rw [List.foldl_cons, ih _ hos]
    simp only [ho, Bool.false_eq_true, if_false, List.foldl_cons, List.length_cons,
      Prod.mk.injEq, true_and]
    push_cast
    ring

theorem binary32_recur_sum_count_all (offsets : List F32) (m : F32)
    (h : ∀ o ∈ offsets, F32.ge (F32.fabs (F32.sub o m)) (F32.ofInt 4) = false) :
    Binary32.recur_sum_count offsets m
      = (Binary32.running_sum offsets, (offsets.length : Int)) := by
  unfold Binary32.recur_sum_count Binary32.running_sum
  rw [binary32_recur_fold_all m offsets _ h]
  simp

theorem binary32_mean_pass_fixed (offsets : List F32) (d : F32) (hn : 8 ≤ offsets.length)
    (h : ∀ o ∈ offsets,
      F32.ge (F32.fabs (F32.sub o
        (F32.div (Binary32.running_sum offsets) (F32.ofInt (offsets.length : Int)))))
        (F32.ofInt 4) = false) :
    Binary32.mean_pass offsets
        { mean_offset := F32.div (Binary32.running_sum offsets) (F32.ofInt offsets.length)
          delta := d
          pre_mean_offset := F32.div (Binary32.running_sum offsets) (F32.ofInt offsets.length)
          count := (offsets.length : Int) }
      = (true,
          { mean_offset := F32.div (Binary32.running_sum offsets) (F32.ofInt offsets.length)
            delta := F32.sub
              (F32.div (Binary32.running_sum offsets) (F32.ofInt offsets.length))
              (F32.div (Binary32.running_sum offsets) (F32.ofInt offsets.length))
            pre_mean_offset :=
              F32.div (Binary32.running_sum offsets) (F32.ofInt offsets.length)
            count := (offsets.length : Int) }) := by
  have hn2 : ¬ ((offsets.length : Int) < 8) := by
    have : (8 : Int) ≤ (offsets.length : Int) := by exact_mod_cast hn
    omega
  unfold Binary32.mean_pass
  simp only [binary32_recur_sum_count_all offsets _ h, min_corners, hn2, if_false,
    f32_gt_fabs_sub_self, Bool.false_eq_true]

theorem binary32_mean_loop_fixed (offsets : List F32) (d : F32) (n : Nat)
    (hn : 8 ≤ offsets.length)
    (h : ∀ o ∈ offsets,
      F32.ge (F32.fabs (F32.sub o
        (F32.div (Binary32.running_sum offsets) (F32.ofInt (offsets.length : Int)))))
        (F32.ofInt 4) = false) :
    Binary32.mean_loop offsets (n + 1)
        { mean_offset := F32.div (Binary32.running_sum offsets) (F32.ofInt offsets.length)
          delta := d
          pre_mean_offset := F32.div (Binary32.running_sum offsets) (F32.ofInt offsets.length)
          count := (offsets.length : Int) }
      = (true,
          { mean_offset := F32.div (Binary32.running_sum offsets) (F32.ofInt offsets.length)
            delta := F32.sub
              (F32.div (Binary32.running_sum offsets) (F32.ofInt offsets.length))
              (F32.div (Binary32.running_sum offsets) (F32.ofInt offsets.length))
            pre_mean_offset :=
              F32.div (Binary32.running_sum offsets) (F32.ofInt offsets.length)
            count := (offsets.length : Int) }) := by
  induction n generalizing d with
  | zero => simp only [Binary32.mean_loop, binary32_mean_pass_fixed offsets d hn h]
  | succ n ih =>
    rw [Binary32.mean_loop, binary32_mean_pass_fixed offsets d hn h]
    exact ih _

theorem binary32_mean_state_before_fixed (offsets : List F32) (k : Nat)
    (hn : 8 ≤ offsets.length)
    (h : ∀ o ∈ offsets,
      F32.ge (F32.fabs (F32.sub o
        (F32.div (Binary32.running_sum offsets) (F32.ofInt (offsets.length : Int)))))
        (F32.ofInt 4) = false) :
    Binary32.mean_state_before offsets
        (Binary32.mean_state_entry (Binary32.running_sum offsets) (offsets.length : Int))
        (k + 1)
      = some
          { mean_offset := F32.div (Binary32.running_sum offsets) (F32.ofInt offsets.length)
            delta := F32.sub
              (F32.div (Binary32.running_sum offsets) (F32.ofInt offsets.length))
              (F32.div (Binary32.running_sum offsets) (F32.ofInt offsets.length))
            pre_mean_offset :=
              F32.div (Binary32.running_sum offsets) (F32.ofInt offsets.length)
            count := (offsets.length : Int) } := by
  induction k with
  | zero =>
    rw [Binary32.mean_state_before, Binary32.mean_state_before]
    simp only [Binary32.mean_state_entry]
    rw [binary32_mean_pass_fixed offsets _ hn h]
  | succ k ih =>
    rw [Binary32.mean_state_before, ih]
    simp only
    rw [binary32_mean_pass_fixed offsets _ hn h]

theorem binary32_get_mean_offset_window (offsets : List F32) (m0 : F32)
    (hn : 8 ≤ offsets.length)
    (h : ∀ o ∈ offsets,
      F32.ge (F32.fabs (F32.sub o
        (F32.div (Binary32.running_sum offsets) (F32.ofInt (offsets.length : Int)))))
        (F32.ofInt 4) = false) :
    Binary32.get_mean_offset offsets (Binary32.running_sum offsets) (offsets.length : Int) m0
      = { ret := true, count := (offsets.length : Int)
          mean_offset :=
            F32.div (Binary32.running_sum offsets) (F32.ofInt offsets.length) } := by
  have hn2 : ¬ ((offsets.length : Int) < 8) := by
    have : (8 : Int) ≤ (offsets.length : Int) := by exact_mod_cast hn
    omega
  have hl := binary32_mean_loop_fixed offsets (F32.ofInt 20) 2 hn h
  simp only [Binary32.get_mean_offset, min_corners, hn2, if_false, Binary32.mean_state_entry]
  rw [hl]

/-! ## `get_mean_offset` in binary32: claims -/

set_option maxRecDepth 100000 in
/-- C5, as stated, fails: the eight offsets `window_offsets` have the exact sum
`window_sum = 1 + 2^-23` (which is also their binary32 running sum), and each of them is
strictly less than `4.0` away from the exact mean `window_sum / 8 = 1/8 + 2^-26`; but for the
offset `4.125` the binary32 difference `4.125 - mean` rounds to `4.0`, the first pass keeps
only 7 offsets, and `get_mean_offset` rejects. -/
theorem window_test_rounds_to_four :
    8 ≤ window_offsets.length ∧
    window_sum.toRat = (window_offsets.map F32.toRat).sum ∧
    window_sum = Binary32.running_sum window_offsets ∧
    (∀ o ∈ window_offsets, |o.toRat - window_sum.toRat / 8| < 4) ∧
    (Binary32.recur_sum_count window_offsets (F32.div window_sum (F32.ofInt 8))).2 = 7 ∧
    (Binary32.get_mean_offset window_offsets window_sum 8 F32.zero).ret = false := by
  have hw : window_offsets
      = [F32.fin 8650752 (-21), F32.fin (-8388608) (-24), F32.fin (-8388608) (-24),
         F32.fin (-8388608) (-24), F32.fin (-8388608) (-24), F32.fin (-8388608) (-24),
         F32.fin (-8388608) (-24), F32.fin (-16777200) (-27)] := by decide
  have hs : window_sum = F32.fin 8388609 (-23) := by decide
  refine ⟨by decide, ?_, by decide, ?_, by decide, by decide⟩
  · rw [hw, hs]
    simp only [List.map_cons, List.map_nil, List.sum_cons, List.sum_nil, F32.toRat]
    norm_num
  · rw [hw, hs]
    intro o ho
    simp only [List.mem_cons, List.mem_singleton, List.not_mem_nil, or_false] at ho
    rcases ho with rfl | rfl | rfl | rfl | rfl | rfl | rfl | rfl <;>
      simp only [F32.toRat] <;> norm_num [abs_lt]

/-- C5, amended: when there are `n ≥ 8` offsets, `count = n`, `sum` is their binary32 running
sum (added from left to right from `0.0f`, as `get_valid_offsets` computes it) and every offset
passes the window test of the code against the initial mean `m0 = sum / n` computed in binary32
(the test `fabs (offset - m0) >= 4.0f` on the rounded difference is false), `get_mean_offset`
succeeds and returns `m0` and `count = n`; after each of the three passes the mean is `m0` and
the count is `n`. -/
theorem get_mean_offset_within_window (offsets : List F32) (m0 : F32) (hn : 8 ≤ offsets.length)
    (h : ∀ o ∈ offsets,
      F32.ge (F32.fabs (F32.sub o
        (F32.div (Binary32.running_sum offsets) (F32.ofInt (offsets.length : Int)))))
        (F32.ofInt 4) = false) :
    Binary32.get_mean_offset offsets (Binary32.running_sum offsets) (offsets.length : Int) m0
      = { ret := true, count := (offsets.length : Int)
          mean_offset :=
            F32.div (Binary32.running_sum offsets) (F32.ofInt offsets.length) } ∧
    ∀ k : Nat, 1 ≤ k → k ≤ 3 →
      ∃ st : Binary32.MeanState,
        Binary32.mean_state_before offsets
          (Binary32.mean_state_entry (Binary32.running_sum offsets) (offsets.length : Int)) k
          = some st ∧
        st.mean_offset = F32.div (Binary32.running_sum offsets) (F32.ofInt offsets.length) ∧
        st.count = (offsets.length : Int) := by
  refine ⟨binary32_get_mean_offset_window offsets m0 hn h, ?_⟩
  intro k hk _
  obtain ⟨j, rfl⟩ : ∃ j, k = j + 1 := ⟨k - 1, by omega⟩
  exact ⟨_, binary32_mean_state_before_fixed offsets j hn h, rfl, rfl⟩

set_option maxRecDepth 100000 in
/-- C5, witness of the amended claim: 30 offsets equal to `14.3f` have the binary32 running
sum `14057468 * 2^-15` and the initial mean `14994633 * 2^-20` (about `14.299996`, four units
in the last place below `14.3f`); all pass the window test, and `get_mean_offset` returns this
mean and count `30`. -/
theorem get_mean_offset_within_window_witness :
    Binary32.get_mean_offset (List.replicate 30 (F32.ofFrac 143 10))
        (Binary32.running_sum (List.replicate 30 (F32.ofFrac 143 10))) 30 F32.zero
      = { ret := true, count := 30, mean_offset := F32.fin 14994633 (-20) } := by
  have h := (get_mean_offset_within_window (List.replicate 30 (F32.ofFrac 143 10)) F32.zero
    (by decide)
    (by
      intro o ho
      rw [List.eq_of_mem_replicate ho]
      decide)).1
  have hm : F32.div (Binary32.running_sum (List.replicate 30 (F32.ofFrac 143 10)))
      (F32.ofInt ((List.replicate 30 (F32.ofFrac 143 10)).length : Int))
      = F32.fin 14994633 (-20) := by decide
  rw [hm] at h
  exact h

set_option maxRecDepth 100000 in
/-- The input of C1 in binary32: on the 20 offsets `10.0f` and 5 offsets `100.0f` with
`sum = 700.0f` and `count = 25` the binary32 embedding of `get_mean_offset` returns the same
result as the embedding on exact rationals: rejection, count `25`, mean `28.0f`. -/
theorem get_mean_offset_cluster_binary32 :
    Binary32.get_mean_offset (List.replicate 20 (F32.ofInt 10) ++ List.replicate 5 (F32.ofInt 100))
        (F32.ofInt 700) 25 F32.zero
      = { ret := false, count := 25, mean_offset := F32.ofInt 28 } := by
  decide

/-! ## The count of `get_mean_offset` in binary32 -/

theorem binary32_recur_fold_count (m : F32) (offsets : List F32) (acc : F32 × Int) :
    (offsets.foldl
        (fun acc o =>
          if F32.ge (F32.fabs (F32.sub o m)) (F32.ofInt 4) = true then acc
          else (F32.add acc.1 o, acc.2 + 1)) acc).2
      = acc.2 + ((Binary32.kept_offsets offsets m).length : Int) := by
  induction offsets generalizing acc with
  | nil => simp [Binary32.kept_offsets]
  | cons o os ih =>
    rw [List.foldl_cons, ih]
    cases h : F32.ge (F32.fabs (F32.sub o m)) (F32.ofInt 4)
    · simp only [Binary32.kept_offsets, Bool.false_eq_true, if_false, List.filter_cons, h,
        Bool.not_false, if_true, List.length_cons]
      push_cast
      ring
    · simp [Binary32.kept_offsets, h]

theorem binary32_recur_count (offsets : List F32) (m : F32) :
    (Binary32.recur_sum_count offsets m).2
      = ((Binary32.kept_offsets offsets m).length : Int) := by
  unfold Binary32.recur_sum_count
  rw [binary32_recur_fold_count]
  simp

theorem binary32_mean_pass_few (offsets : List F32) (st : Binary32.MeanState)
    (h : (Binary32.kept_offsets offsets st.mean_offset).length < 8) :
    (Binary32.mean_pass offsets st).1 = false := by
  have h2 : ((Binary32.kept_offsets offsets st.mean_offset).length : Int) < 8 := by
    exact_mod_cast h
  unfold Binary32.mean_pass
  simp only [binary32_recur_count, min_corners, h2, if_true]

theorem binary32_mean_pass_count (offsets : List F32) (st st1 : Binary32.MeanState)
    (h : Binary32.mean_pass offsets st = (true, st1)) : 8 ≤ st1.count := by
  unfold Binary32.mean_pass at h
  simp only [min_corners] at h
  split_ifs at h with h1 h2
  · simp at h
  · simp at h
  · simp only [Prod.mk.injEq, true_and] at h
    rw [← h]
    exact not_lt.mp h1

theorem binary32_mean_loop_count (offsets : List F32) (n : Nat)
    (st st1 : Binary32.MeanState)
    (h : Binary32.mean_loop offsets (n + 1) st = (true, st1)) : 8 ≤ st1.count := by
  induction n generalizing st with
  | zero =>
    unfold Binary32.mean_loop at h
    split at h
    · next s1 hp =>
      simp only [Binary32.mean_loop, Prod.mk.injEq, true_and] at h
      rw [← h]
      exact binary32_mean_pass_count offsets st s1 hp
    · simp at h
  | succ n ih =>
    rw [Binary32.mean_loop] at h
    split at h
    · next s1 hp => exact ih s1 h
    · simp at h

theorem binary32_mean_loop_split (offsets : List F32) (k j : Nat)
    (st s : Binary32.MeanState) (h : Binary32.mean_state_before offsets st k = some s) :
    Binary32.mean_loop offsets (k + j) st = Binary32.mean_loop offsets j s := by
  induction k generalizing s j with
  | zero =>
    simp only [Binary32.mean_state_before, Option.some.injEq] at h
    simp [h]
  | succ k ih =>
    rw [Binary32.mean_state_before] at h
    split at h
    · simp at h
    · next s0 h0 =>
      split at h
      · next s1 hp =>
        simp only [Option.some.injEq] at h
        have e : k + 1 + j = k + (j + 1) := by omega
        rw [e, ih (j + 1) s0 h0, Binary32.mean_loop, hp, h]
      · simp at h

theorem binary32_mean_loop_break (offsets : List F32) (n : Nat) (st : Binary32.MeanState)
    (h : (Binary32.mean_pass offsets st).1 = false) :
    (Binary32.mean_loop offsets (n + 1) st).1 = false := by
  rw [Binary32.mean_loop]
  split
  · next s1 hp => simp [hp] at h
  · rfl

/-- The statement of C4 for the binary32 embedding: `get_mean_offset` rejects when
`count < 8`; it rejects when a refinement pass that is reached keeps fewer than 8 offsets; and
when it succeeds the count it returns is at least 8. -/
theorem binary32_get_mean_offset_count (offsets : List F32) (sum : F32) (count : Int)
    (m0 : F32) :
    (count < 8 → (Binary32.get_mean_offset offsets sum count m0).ret = false) ∧
    (∀ (k : Nat) (st : Binary32.MeanState), k < 3 →
      Binary32.mean_state_before offsets (Binary32.mean_state_entry sum count) k = some st →
      (Binary32.kept_offsets offsets st.mean_offset).length < 8 →
      (Binary32.get_mean_offset offsets sum count m0).ret = false) ∧
    ((Binary32.get_mean_offset offsets sum count m0).ret = true →
      8 ≤ (Binary32.get_mean_offset offsets sum count m0).count) := by
  refine ⟨?_, ?_, ?_⟩
  · intro h
    simp [Binary32.get_mean_offset, min_corners, h]
  · intro k st hk hst hkept
    unfold Binary32.get_mean_offset
    split_ifs with hc
    · rfl
    · obtain ⟨j, hj⟩ : ∃ j, 3 = k + (j + 1) := ⟨2 - k, by omega⟩
      show (Binary32.mean_loop offsets 3 (Binary32.mean_state_entry sum count)).1 = false
      rw [hj, binary32_mean_loop_split offsets k (j + 1) _ st hst]
      exact binary32_mean_loop_break offsets j st (binary32_mean_pass_few offsets st hkept)
  · unfold Binary32.get_mean_offset
    split_ifs with hc
    · simp
    · intro h
      exact binary32_mean_loop_count offsets 2 (Binary32.mean_state_entry sum count)
        (Binary32.mean_loop offsets 3 (Binary32.mean_state_entry sum count)).2 (Prod.ext h rfl)

/-! ## `get_valid_offsets` -/

theorem get_valid_offsets_body_eq (corner0 corner1 : List Point2f) (status : List Nat)
    (error : List F32) (acc : ValidOffsets) (i n : Nat) (hi : i < n) (h0 : corner0.length = n)
    (h1 : corner1.length = n) (hs : status.length = n) (he : error.length = n) :
    get_valid_offsets_body corner0 corner1 status error acc i
      = if accepted corner0 corner1 status error i = true then
          { offsets := acc.offsets ++ [offset_at corner0 corner1 i]
            sum := F32.add acc.sum (offset_at corner0 corner1 i)
            count := acc.count + 1 }
        else acc := by
  unfold get_valid_offsets_body accepted offset_at
  rw [List.getD_eq_getElem _ _ (by omega : i < status.length),
    List.getD_eq_getElem _ _ (by omega : i < error.length),
    List.getD_eq_getElem _ _ (by omega : i < corner0.length),
    List.getD_eq_getElem _ _ (by omega : i < corner1.length),
    List.getElem?_eq_getElem (by omega : i < status.length),
    List.getElem?_eq_getElem (by omega : i < error.length),
    List.getElem?_eq_getElem (by omega : i < corner0.length),
    List.getElem?_eq_getElem (by omega : i < corner1.length)]
  simp only []
  generalize status[i] = s
  generalize error[i] = e
  generalize corner0[i] = p0
  generalize corner1[i] = p1
  by_cases hs : s = 0
  · simp [hs]
  · cases he : F32.gt e (F32.ofInt 16)
    · cases hy : F32.ge (F32.fabs (F32.sub p0.y p1.y)) (F32.ofInt 4)
      · simp [hs]
      · simp [hs]
    · simp [hs]

theorem get_valid_offsets_fold (corner0 corner1 : List Point2f) (status : List Nat)
    (error : List F32) (n : Nat) (h0 : corner0.length = n) (h1 : corner1.length = n)
    (hs : status.length = n) (he : error.length = n) (l : List Nat) (hl : ∀ i ∈ l, i < n)
    (acc : ValidOffsets) :
    l.foldl (get_valid_offsets_body corner0 corner1 status error) acc
      = { offsets := acc.offsets ++
            (l.filter (accepted corner0 corner1 status error)).map (offset_at corner0 corner1)
          sum := ((l.filter (accepted corner0 corner1 status error)).map
              (offset_at corner0 corner1)).foldl F32.add acc.sum
          count := acc.count +
            ((l.filter (accepted corner0 corner1 status error)).length : Int) } := by
  induction l generalizing acc with
  | nil => simp
  | cons i l ih =>
    have hi : i < n := hl i (List.mem_cons_self i l)
    have hl2 : ∀ j ∈ l, j < n := fun j hj => hl j (List.mem_cons_of_mem i hj)
    rw [List.foldl_cons, ih hl2,
      get_valid_offsets_body_eq corner0 corner1 status error acc i n hi h0 h1 hs he]
    by_cases ha : accepted corner0 corner1 status error i = true
    · simp only [ha, if_true, List.filter_cons_of_pos, List.map_cons, List.foldl_cons,
        List.length_cons]
      congr 1
      · simp
      · push_cast; ring
    · simp [ha]

set_option maxRecDepth 100000 in
/-- C3, as stated, fails: for the single correspondence `points0 = (0, 4)`,
`points1 = (1, 2^-26)` with status `1` and error `0` the vertical displacement is
`4 - 2^-26 < 4`, so that the claim prescribes the offsets `[1]`, count `1` and sum `1`; but the
binary32 difference `4 - 2^-26` rounds to `4.0`, the test `fabs (..) >= 4` holds, and
`get_valid_offsets` returns no offset, count `0` and sum `0`. -/
theorem get_valid_offsets_rounds_to_four :
    offsets_exact [⟨F32.ofInt 0, F32.ofInt 4⟩] [⟨F32.ofInt 1, F32.ofFrac 1 67108864⟩] [1]
        [F32.ofInt 0] 1 = [1] ∧
    (get_valid_offsets [⟨F32.ofInt 0, F32.ofInt 4⟩] [⟨F32.ofInt 1, F32.ofFrac 1 67108864⟩] [1]
        [F32.ofInt 0] []).offsets = [] ∧
    (get_valid_offsets [⟨F32.ofInt 0, F32.ofInt 4⟩] [⟨F32.ofInt 1, F32.ofFrac 1 67108864⟩] [1]
        [F32.ofInt 0] []).count = 0 ∧
    (get_valid_offsets [⟨F32.ofInt 0, F32.ofInt 4⟩] [⟨F32.ofInt 1, F32.ofFrac 1 67108864⟩] [1]
        [F32.ofInt 0] []).sum = F32.zero ∧
    (get_valid_offsets [⟨F32.ofInt 0, F32.ofInt 4⟩] [⟨F32.ofInt 1, F32.ofFrac 1 67108864⟩] [1]
        [F32.ofInt 0] []).offsets.map F32.toRat
      ≠ offsets_exact [⟨F32.ofInt 0, F32.ofInt 4⟩] [⟨F32.ofInt 1, F32.ofFrac 1 67108864⟩] [1]
          [F32.ofInt 0] 1 := by
  have h0 : F32.ofInt 0 = F32.fin 0 (-149) := by decide
  have h1 : F32.ofInt 1 = F32.fin 8388608 (-23) := by decide
  have h4 : F32.ofInt 4 = F32.fin 8388608 (-21) := by decide
  have hy : F32.ofFrac 1 67108864 = F32.fin 8388608 (-49) := by decide
  have hex : offsets_exact [⟨F32.ofInt 0, F32.ofInt 4⟩] [⟨F32.ofInt 1, F32.ofFrac 1 67108864⟩]
      [1] [F32.ofInt 0] 1 = [1] := by
    rw [h0, h1, h4, hy]
    simp only [offsets_exact, accepted_exact, List.range_succ, List.range_zero, List.nil_append,
      List.filter_cons, List.filter_nil, List.getElem?_cons_zero, F32.toRat,
      List.getD_cons_zero]
    norm_num [abs_lt, F32.toRat]
  have hco : (get_valid_offsets [⟨F32.ofInt 0, F32.ofInt 4⟩]
      [⟨F32.ofInt 1, F32.ofFrac 1 67108864⟩] [1] [F32.ofInt 0] []).offsets = [] := by decide
  refine ⟨hex, hco, by decide, by decide, ?_⟩
  rw [hex, hco]
  simp

/-- C3, amended: for `points0`, `points1`, `status`, `error` of equal length `n` and an empty
`offsets` on entry, `get_valid_offsets` outputs in `offsets` exactly the binary32 differences
`points1[i].x - points0[i].x` (rounded to nearest), in index order, of the indices `i < n` for
which `status[i]` is nonzero, the test `error[i] > 16` is false and the test
`fabs (points0[i].y - points1[i].y) >= 4` on the rounded binary32 difference is false; `count`
is the number of these indices and `sum` is the binary32 running sum of these values (added
from left to right from `0.0f`, each addition rounded). -/
theorem get_valid_offsets_accepted (corner0 corner1 : List Point2f) (status : List Nat)
    (error : List F32) (n : Nat) (h0 : corner0.length = n) (h1 : corner1.length = n)
    (hs : status.length = n) (he : error.length = n) :
    (get_valid_offsets corner0 corner1 status error []).offsets
      = (accepted_indices corner0 corner1 status error n).map (offset_at corner0 corner1) ∧
    (get_valid_offsets corner0 corner1 status error []).count
      = ((accepted_indices corner0 corner1 status error n).length : Int) ∧
    (get_valid_offsets corner0 corner1 status error []).sum
      = Binary32.running_sum
          ((accepted_indices corner0 corner1 status error n).map
            (offset_at corner0 corner1)) := by
  unfold get_valid_offsets accepted_indices Binary32.running_sum
  rw [get_valid_offsets_fold corner0 corner1 status error n h0 h1 hs he (List.range status.length)
    (fun i hi => by rw [hs] at hi; exact List.mem_range.mp hi), hs]
  simp

set_option maxRecDepth 100000 in
/-- C3, witness of the amended claim: of three correspondences the first is accepted (offset
`7 - 2 = 5`, error exactly `16`), the second has status `0` and the third a vertical
displacement of exactly `4`; the output is the single offset `5.0f` with `count = 1` and
`sum = 5.0f`. -/
theorem get_valid_offsets_accepted_witness :
    (get_valid_offsets
        [⟨F32.ofInt 2, F32.ofInt 1⟩, ⟨F32.ofInt 3, F32.ofInt 1⟩, ⟨F32.ofInt 4, F32.ofInt 0⟩]
        [⟨F32.ofInt 7, F32.ofInt 2⟩, ⟨F32.ofInt 9, F32.ofInt 1⟩, ⟨F32.ofInt 5, F32.ofInt 4⟩]
        [1, 0, 1] [F32.ofInt 16, F32.ofInt 0, F32.ofInt 3] []).offsets = [F32.ofInt 5] ∧
    (get_valid_offsets
        [⟨F32.ofInt 2, F32.ofInt 1⟩, ⟨F32.ofInt 3, F32.ofInt 1⟩, ⟨F32.ofInt 4, F32.ofInt 0⟩]
        [⟨F32.ofInt 7, F32.ofInt 2⟩, ⟨F32.ofInt 9, F32.ofInt 1⟩, ⟨F32.ofInt 5, F32.ofInt 4⟩]
        [1, 0, 1] [F32.ofInt 16, F32.ofInt 0, F32.ofInt 3] []).count = 1 ∧
    (get_valid_offsets
        [⟨F32.ofInt 2, F32.ofInt 1⟩, ⟨F32.ofInt 3, F32.ofInt 1⟩, ⟨F32.ofInt 4, F32.ofInt 0⟩]
        [⟨F32.ofInt 7, F32.ofInt 2⟩, ⟨F32.ofInt 9, F32.ofInt 1⟩, ⟨F32.ofInt 5, F32.ofInt 4⟩]
        [1, 0, 1] [F32.ofInt 16, F32.ofInt 0, F32.ofInt 3] []).sum = F32.ofInt 5 := by
  have h := get_valid_offsets_accepted
    [⟨F32.ofInt 2, F32.ofInt 1⟩, ⟨F32.ofInt 3, F32.ofInt 1⟩, ⟨F32.ofInt 4, F32.ofInt 0⟩]
    [⟨F32.ofInt 7, F32.ofInt 2⟩, ⟨F32.ofInt 9, F32.ofInt 1⟩, ⟨F32.ofInt 5, F32.ofInt 4⟩]
    [1, 0, 1] [F32.ofInt 16, F32.ofInt 0, F32.ofInt 3] 3 rfl rfl rfl rfl
  have hl : (accepted_indices
      [⟨F32.ofInt 2, F32.ofInt 1⟩, ⟨F32.ofInt 3, F32.ofInt 1⟩, ⟨F32.ofInt 4, F32.ofInt 0⟩]
      [⟨F32.ofInt 7, F32.ofInt 2⟩, ⟨F32.ofInt 9, F32.ofInt 1⟩, ⟨F32.ofInt 5, F32.ofInt 4⟩]
      [1, 0, 1] [F32.ofInt 16, F32.ofInt 0, F32.ofInt 3] 3).map
        (offset_at
          [⟨F32.ofInt 2, F32.ofInt 1⟩, ⟨F32.ofInt 3, F32.ofInt 1⟩, ⟨F32.ofInt 4, F32.ofInt 0⟩]
          [⟨F32.ofInt 7, F32.ofInt 2⟩, ⟨F32.ofInt 9, F32.ofInt 1⟩, ⟨F32.ofInt 5, F32.ofInt 4⟩])
      = [F32.ofInt 5] := by decide
  have hi : accepted_indices
      [⟨F32.ofInt 2, F32.ofInt 1⟩, ⟨F32.ofInt 3, F32.ofInt 1⟩, ⟨F32.ofInt 4, F32.ofInt 0⟩]
      [⟨F32.ofInt 7, F32.ofInt 2⟩, ⟨F32.ofInt 9, F32.ofInt 1⟩, ⟨F32.ofInt 5, F32.ofInt 4⟩]
      [1, 0, 1] [F32.ofInt 16, F32.ofInt 0, F32.ofInt 3] 3 = [0] := by decide
  have hr : Binary32.running_sum [F32.ofInt 5] = F32.ofInt 5 := by decide
  rw [hl, hr] at h
  rw [hi] at h
  exact h

/-! ## `calc_match_optical_flow` -/

set_option maxRecDepth 100000 in
/-- C2, as stated, fails, in both of its parts.  (a) For eight correspondences with the offset
`1.0`, `lastMeanOffset = 1.0` and `s = 0.0`, `get_mean_offset` succeeds with mean `1.0`
and the closeness condition holds, but the new `out_x_offset` is the binary32 number
`13421772 * 2^-26` (it is `1.0f - 0.8f`), not `0.8 * s + 0.2 * mean = 1/5`.  (b) For eight
correspondences with the offset `20.0`, `lastMeanOffset = 0.0` and `s = 0.0`, `get_mean_offset`
succeeds with mean `20.0`, neither closeness condition holds, and the new `out_x_offset` is
`s = 0`: it is `0` although `get_mean_offset` did not reject. -/
theorem smoothing_rounded_and_zero_on_success :
    ((Binary32.get_mean_offset
        (get_valid_offsets (points_at F32.zero 8) (points_at (F32.ofInt 1) 8)
          (List.replicate 8 1) (List.replicate 8 F32.zero) []).offsets
        (get_valid_offsets (points_at F32.zero 8) (points_at (F32.ofInt 1) 8)
          (List.replicate 8 1) (List.replicate 8 F32.zero) []).sum
        (get_valid_offsets (points_at F32.zero 8) (points_at (F32.ofInt 1) 8)
          (List.replicate 8 1) (List.replicate 8 F32.zero) []).count F32.zero)
      = { ret := true, count := 8, mean_offset := F32.ofInt 1 } ∧
     |(F32.ofInt 1).toRat - F32.zero.toRat| < 12 ∧
     (calc_match_optical_flow (points_at F32.zero 8) (points_at (F32.ofInt 1) 8)
        (List.replicate 8 1) (List.replicate 8 F32.zero)
        { last_count := 0, last_mean_offset := F32.ofInt 1, out_x_offset := F32.zero }
      ).out_x_offset.toRat
      ≠ 4 / 5 * F32.zero.toRat + 1 / 5 * (F32.ofInt 1).toRat) ∧
    ((Binary32.get_mean_offset
        (get_valid_offsets (points_at F32.zero 8) (points_at (F32.ofInt 20) 8)
          (List.replicate 8 1) (List.replicate 8 F32.zero) []).offsets
        (get_valid_offsets (points_at F32.zero 8) (points_at (F32.ofInt 20) 8)
          (List.replicate 8 1) (List.replicate 8 F32.zero) []).sum
        (get_valid_offsets (points_at F32.zero 8) (points_at (F32.ofInt 20) 8)
          (List.replicate 8 1) (List.replicate 8 F32.zero) []).count F32.zero).ret = true ∧
     (calc_match_optical_flow (points_at F32.zero 8) (points_at (F32.ofInt 20) 8)
        (List.replicate 8 1) (List.replicate 8 F32.zero)
        { last_count := 0, last_mean_offset := F32.zero, out_x_offset := F32.zero }
      ).out_x_offset = F32.zero) := by
  have h1 : F32.ofInt 1 = F32.fin 8388608 (-23) := by decide
  have hout : (calc_match_optical_flow (points_at F32.zero 8) (points_at (F32.ofInt 1) 8)
        (List.replicate 8 1) (List.replicate 8 F32.zero)
        { last_count := 0, last_mean_offset := F32.ofInt 1, out_x_offset := F32.zero }
      ).out_x_offset = F32.fin 13421772 (-26) := by decide
  refine ⟨⟨by decide, ?_, ?_⟩, by decide, by decide⟩
  · rw [h1]
    norm_num [F32.toRat, F32.zero, abs_lt]
  · rw [hout, h1]
    norm_num [F32.toRat, F32.zero]

/-- C2, amended: the new `out_x_offset` (smoothed offset) after `calc_match_optical_flow` is
`0.0f` when `get_mean_offset` rejects; the binary32 value `s * 0.8f + mean * (1.0f - 0.8f)`
(two rounded products and a rounded sum) when it succeeds with `mean` and one of the tests
`fabs (mean - lastMeanOffset) < 1.0f`, `fabs (mean - s) < 12.0f` holds on the rounded binary32
difference; and the old value `s` when it succeeds and neither test holds. -/
theorem calc_match_optical_flow_smoothing (corner0 corner1 : List Point2f) (status : List Nat)
    (error : List F32) (last_count : Int) (last_mean_offset s : F32) :
    (calc_match_optical_flow corner0 corner1 status error
        { last_count := last_count, last_mean_offset := last_mean_offset,
          out_x_offset := s }).out_x_offset
      = if (Binary32.get_mean_offset
              (get_valid_offsets corner0 corner1 status error []).offsets
              (get_valid_offsets corner0 corner1 status error []).sum
              (get_valid_offsets corner0 corner1 status error []).count F32.zero).ret = false
        then F32.zero
        else if
            F32.lt (F32.fabs (F32.sub
              (Binary32.get_mean_offset
                (get_valid_offsets corner0 corner1 status error []).offsets
                (get_valid_offsets corner0 corner1 status error []).sum
                (get_valid_offsets corner0 corner1 status error []).count F32.zero).mean_offset
              last_mean_offset)) (F32.ofInt 1) = true ∨
            F32.lt (F32.fabs (F32.sub
              (Binary32.get_mean_offset
                (get_valid_offsets corner0 corner1 status error []).offsets
                (get_valid_offsets corner0 corner1 status error []).sum
                (get_valid_offsets corner0 corner1 status error []).count F32.zero).mean_offset
              s)) (F32.ofInt 12) = true then
          F32.add (F32.mul s (F32.ofFrac 4 5))
            (F32.mul
              (Binary32.get_mean_offset
                (get_valid_offsets corner0 corner1 status error []).offsets
                (get_valid_offsets corner0 corner1 status error []).sum
                (get_valid_offsets corner0 corner1 status error []).count F32.zero).mean_offset
              (F32.sub (F32.ofInt 1) (F32.ofFrac 4 5)))
        else s := by
  unfold calc_match_optical_flow
  simp only [delta_mean_offset, delta_offset, offset_factor]
  cases (Binary32.get_mean_offset (get_valid_offsets corner0 corner1 status error []).offsets
              (get_valid_offsets corner0 corner1 status error []).sum
              (get_valid_offsets corner0 corner1 status error []).count F32.zero).ret
  · simp
  · simp

/-! ## Normalization of a field whose size wraps in 32 bits -/

theorem fold_cells_beyond (g : (Nat → ℚ) → Nat → (Nat → ℚ)) (a b : Nat → ℚ → ℚ)
    (hg : ∀ (m : Nat → ℚ) (i j : Nat), i * 4 + 1 < 2 ^ 32 →
      g m i j = if j = 4 * i then a i (m j) else if j = 4 * i + 1 then b i (m j) else m j)
    (n : Nat) (hn : n * 4 ≤ 2 ^ 32) (mem : Nat → ℚ) (j : Nat) (hj : n ≤ j / 4) :
    (List.range n).foldl g mem j = mem j := by
  rw [fold_cells g a b hg n hn mem j, if_neg (not_lt.mpr hj)]

/-- C7, as stated, fails: for field data of the declared size 65536 x 65537, a successful
`set_map_data` followed by a successful `prepare_parameters` with a 640x480 input leaves a
buffer of `2 ^ 20` bytes (65536 cells), fewer than the `65536 * 65537 * 16` bytes of the
declared field, because the cell count and the byte size wrap in 32 bits; the cell `i = 65536 < 65536 * 65537` is neither written nor normalized, and what the
model reads at its place is the initial content `0`, not `32 / 640`. -/
theorem normalize_field_size_wraps :
    set_map_data alloc_ok true data_32 65536 65537 CLGeoMapHandler.new
      = (true, handler_loaded_wrapped) ∧
    prepare_frames [frame_640x480] handler_loaded_wrapped
      = some (prepare_parameters frame_640x480 handler_loaded_wrapped).2 ∧
    handler_loaded_wrapped._geo_map.map CLBuffer.size = some (2 ^ 20) ∧
    2 ^ 20 < 65536 * 65537 * 16 ∧
    ¬ ∃ buf : CLBuffer,
        (prepare_parameters frame_640x480 handler_loaded_wrapped).2._geo_map = some buf ∧
        ∀ i : Nat, i < 65536 * 65537 →
          buf.mem (4 * i) = (data_32 i).x / (XCAM_ALIGN_DOWN 640 2 : ℚ) ∧
          buf.mem (4 * i + 1) = (data_32 i).y / (XCAM_ALIGN_DOWN 480 2 : ℚ) := by
  have hg : handler_loaded_wrapped._geo_map
      = some { size := 2 ^ 20
               mem := (List.range 65536).foldl (set_map_cell data_32) alloc_ok.buffer_init } :=
    rfl
  have hp : prepare_parameters frame_640x480 handler_loaded_wrapped
      = (XCamReturn.XCAM_RETURN_NO_ERROR,
          (prepare_parameters frame_640x480 handler_loaded_wrapped).2) :=
    Prod.ext (prepare_parameters_ret frame_640x480 handler_loaded_wrapped _ hg rfl) rfl
  have hdim : handler_loaded_wrapped._map_width * handler_loaded_wrapped._map_height % 2 ^ 32
      = 65536 := rfl
  refine ⟨rfl, ?_, ?_, by norm_num, ?_⟩
  · rw [prepare_frames, hp]
    simp only [prepare_frames]
  · rw [hg]
    rfl
  · rintro ⟨buf, hb, hcells⟩
    obtain ⟨_, buf1, hb1, hb2⟩ := prepare_parameters_first frame_640x480
      handler_loaded_wrapped (prepare_parameters frame_640x480 handler_loaded_wrapped).2 rfl hp
    rw [hg, Option.some.injEq] at hb1
    subst hb1
    rw [hb2, Option.some.injEq, hdim] at hb
    subst hb
    have hc := (hcells 65536 (by norm_num)).1
    simp only at hc
    rw [fold_cells_beyond _ (fun _ v => v / ((XCAM_ALIGN_DOWN frame_640x480.in_info.width 2 : Nat) : ℚ))
        (fun _ v => v / ((XCAM_ALIGN_DOWN frame_640x480.in_info.height 2 : Nat) : ℚ))
        (fun m i j hi => normalize_cell_eq _ _ m i j hi) 65536 (by norm_num) _ _ (by norm_num),
      fold_cells_beyond _ (fun i _ => (data_32 i).x) (fun i _ => (data_32 i).y)
        (fun m i j hi => set_map_cell_eq data_32 m i j hi) 65536 (by norm_num) _ _
        (by norm_num)] at hc
    norm_num [alloc_ok, data_32, XCAM_ALIGN_DOWN] at hc

end XCam
